import Mathlib

/-!
Verification of the nautobot-ssot-vsphere reconciliation engine.

This file gives a shallow embedding of the repository's three source files
(`diffsync/diffsync_models.py`, `utilities/hasmat.py`, `utilities/__init__.py`)
and proves or refutes the frozen claims about them.

Conventions of the embedding:
* Python exceptions are values of the `Exc` inductive; a function that can
  raise returns the exception in its result rather than a value.
* Django querysets are Lean lists of records; `Model.objects.get(...)` is
  `dget` (zero matches raise `DoesNotExist`, several raise
  `MultipleObjectsReturned`), `get_or_create` is `getOrCreate`, and
  `update_or_create` is `updateOrCreate`.
* A fetched Django model instance is a value (snapshot) of the row; saving
  writes the snapshot's fields back over the row.
-/

namespace VsphereSSoT

/-- Python exceptions that the embedded code can raise.  Django's
per-model `DoesNotExist` / `MultipleObjectsReturned` classes are told apart
by the model name they carry, because `except Foo.DoesNotExist` only catches
the exception of that one model. -/
inductive Exc where
  | doesNotExist (model : String)
  | multipleObjectsReturned (model : String)
  | integrityError (model : String)
  | unboundLocalError
  | keyError (key : String)
  | typeError
  | valueError
deriving DecidableEq, Repr

/-- Lower-case a string character by character (Python `str.lower()` on the
ASCII strings this repository handles). -/
def strLower (s : String) : String := String.mk (s.toList.map Char.toLower)

/-! ## Embedding of `utilities/hasmat.py`

The regular expressions occurring in this module use no metacharacters other
than the anchors `^`, `$` and the alternation bar `|`; every branch is a
literal.  `regexSearch` models Python's `re.search(pattern, s, re.IGNORECASE)`
restricted to exactly these pattern forms: split the pattern on `|`, and a
branch matches if its literal occurs in the string, at the start when the
branch begins with `^`, at the end when it ends with `$` (the inputs here
contain no newline, so `$` is end-of-string). -/

/-- Shape of one alternation branch of a pattern: optional `^` anchor,
optional `$` anchor, literal body. -/
structure ReBranch where
  anchoredStart : Bool
  anchoredEnd : Bool
  lit : List Char
deriving DecidableEq, Repr

/-- Split a character list at every occurrence of `sep` (Python
`str.split(sep)` on the branches of an alternation pattern). -/
def charSplit (sep : Char) : List Char → List (List Char)
  | [] => [[]]
  | c :: cs =>
    match charSplit sep cs with
    | [] => if c == sep then [[], []] else [[c]]
    | h :: t => if c == sep then [] :: h :: t else (c :: h) :: t

/-- Read the anchors off one alternation branch of a pattern. -/
def parseBranch (p : List Char) : ReBranch :=
  let s := match p with
    | '^' :: r => (true, r)
    | _ => (false, p)
  let e := if s.2.getLast? == some '$' then (true, s.2.dropLast) else (false, s.2)
  ⟨s.1, e.1, e.2⟩

/-- Containment of `l` as a contiguous run inside `t` (Python `in` /
unanchored `re.search` of a literal). -/
def listInfixOf (l : List Char) : List Char → Bool
  | [] => l.isEmpty
  | c :: ts => l.isPrefixOf (c :: ts) || listInfixOf l ts

/-- Case-insensitive match of one literal branch against the string. -/
def branchMatches (b : ReBranch) (s : String) : Bool :=
  let lit := b.lit.map Char.toLower
  let t := s.toList.map Char.toLower
  match b.anchoredStart, b.anchoredEnd with
  | true, true => lit == t
  | true, false => lit.isPrefixOf t
  | false, true => lit.isSuffixOf t
  | false, false => listInfixOf lit t

/-- Model of `re.search(pattern, s, re.IGNORECASE)` for the literal
alternation patterns of `hasmat.py` (returns whether a match exists). -/
def regexSearch (pattern s : String) : Bool :=
  (charSplit '|' pattern.toList).any (fun p => branchMatches (parseBranch p) s)

/-- `ORGANIZATION_DC_MAPPINGS` of `hasmat.py`, verbatim: an ordered list of
(code, pattern list) pairs (each Python dict in the list has one key). -/
def ORGANIZATION_DC_MAPPINGS : List (String × List String) :=
  [ ("GTN",
      [ "^JUPITER$",
        "Germantown",
        "SOUTH AMERICA|JUPITER 2|HUGHES NOC|ENTERPRISE|EM7|T19 DDNS|E05-J2WW-GTN|SBSS|HUGHES RFT|GSDS|T19-NMS|SYSTEM|FACILITY|JUP2 RFT|HUGHES EXXONMOBILE|T19 RFT",
        "^GTN" ]),
    ("T19", ["^T19-"]),
    ("GEE", ["^ROW"]),
    ("DET", ["Detroit"]),
    ("NLV", ["Vegas"]),
    ("split", ["^JUPITER-", "^JUP2-", "^J1", "^J2", "^J3"]) ]

/-- `ORGANIZATION_SERVICE_MAPPINGS` of `hasmat.py`. -/
def ORGANIZATION_SERVICE_MAPPINGS : List (String × String) :=
  [("jupiter", "j1"), ("jup2", "j2")]

/-- `SERVICE_MAPPINGS` of `hasmat.py`. -/
def SERVICE_MAPPINGS : List (String × List String) :=
  [("j1", ["^J1"]), ("j2", ["^J2"]), ("j3", ["^J3"])]

/-- `normalize_service` of `hasmat.py`. -/
def normalize_service (service : String) : String :=
  let service := strLower service
  match ORGANIZATION_SERVICE_MAPPINGS.find? (fun p => p.1 == service) with
  | some p => p.2
  | none => service

/-- Python `s.replace(" ", "-", 1)` on the character list. -/
def replaceFirstSpace : List Char → List Char
  | [] => []
  | c :: cs => if c == ' ' then '-' :: cs else c :: replaceFirstSpace cs

/-- Python `s.split(sep, 1)` viewed as an optional pair: `none` when the
separator does not occur (Python then returns a one-element list, and the
two-name tuple unpacking in the source raises `ValueError`). -/
def splitFirst (sep : Char) : List Char → Option (List Char × List Char)
  | [] => none
  | c :: cs =>
    if c == sep then some ([], cs)
    else (splitFirst sep cs).map (fun p => (c :: p.1, p.2))

/-- One pattern step of the `parse_organization_for_site_service` loop:
on a match, the `split` key unpacks `organization.replace(" ", "-", 1)
.split("-", 1)` into (service, site) — `ValueError` when there is no
separator — and any other key overwrites the site with itself. -/
def orgStep (organization : String) (st : String × String) (key pat : String) :
    Except Exc (String × String) :=
  if regexSearch pat organization then
    if key == "split" then
      match splitFirst '-' (replaceFirstSpace organization.toList) with
      | some p => .ok (String.mk p.1, String.mk p.2)
      | none => .error .valueError
    else .ok (st.1, key)
  else .ok st

/-- Processing of one (code, pattern list) mapping: every pattern is tried,
with no early exit. -/
def orgMapping (organization : String) (acc : Except Exc (String × String))
    (m : String × List String) : Except Exc (String × String) :=
  m.2.foldl (fun acc2 pat => acc2.bind (fun st => orgStep organization st m.1 pat)) acc

/-- `parse_organization_for_site_service` of `hasmat.py`: the working
(service, site) pair starts at ("unknown", "unknown") — service "fsn" for
the literal organization "Fusion" — and every mapping's every pattern is
iterated; the returned pair is (normalize_service service, site.lower()). -/
def parse_organization_for_site_service (organization : String) :
    Except Exc (String × String) :=
  let service := if organization == "Fusion" then "fsn" else "unknown"
  let res := ORGANIZATION_DC_MAPPINGS.foldl (orgMapping organization)
    (.ok (service, "unknown"))
  res.map (fun st => (normalize_service st.1, strLower st.2))

/-- `parse_name_for_service` of `hasmat.py`: for each mapping's each
pattern, a match overwrites the working service with the mapping's code and
a non-match overwrites it with "hns". -/
def parse_name_for_service (device_name : String) : String :=
  SERVICE_MAPPINGS.foldl
    (fun service m =>
      m.2.foldl (fun _s pat => if regexSearch pat device_name then m.1 else "hns") service)
    "unknown"

/-! ## The target store

Lists of records stand for the Nautobot tables the module touches.  A
record field that references another entity holds that entity's natural
identifier (spec §3: cross-references are resolved by re-querying with
identifiers).  Store-level uniqueness constraints follow the spec §3
invariant that identifier tuples are unique within their kind. -/

/-- Natural key of an IPAddress row: (host, prefix_length). -/
abbrev IPKey := String × Nat

structure ClusterGroupRec where
  name : String
  slug : String
deriving DecidableEq, Repr

structure ClusterTypeRec where
  name : String
deriving DecidableEq, Repr

structure ClusterRec where
  name : String
  type : String
  group : Option String
deriving DecidableEq, Repr

structure StatusRec where
  name : String
deriving DecidableEq, Repr

structure VMRec where
  name : String
  status : String
  cluster : String
  vcpus : Option Int
  memory : Option Int
  disk : Option Int
  primary_ip4 : Option IPKey
  primary_ip6 : Option IPKey
deriving DecidableEq, Repr

structure VMInterfaceRec where
  name : String
  virtual_machine : String
  enabled : Bool
  mac_address : Option String
  ip_addresses : List IPKey
deriving DecidableEq, Repr

structure IPRec where
  host : String
  prefix_length : Nat
  status : String
deriving DecidableEq, Repr

structure SiteRec where
  slug : String
deriving DecidableEq, Repr

structure DeviceTypeRec where
  model : String
deriving DecidableEq, Repr

structure DeviceRoleRec where
  name : String
deriving DecidableEq, Repr

structure DeviceRec where
  name : String
  status : String
  device_role : String
  device_type : String
  cluster : String
  site : String
deriving DecidableEq, Repr

/-- The target store: one list of rows per table touched by the module. -/
structure Store where
  clustergroups : List ClusterGroupRec
  clustertypes : List ClusterTypeRec
  clusters : List ClusterRec
  statuses : List StatusRec
  vms : List VMRec
  vminterfaces : List VMInterfaceRec
  ipaddresses : List IPRec
  devices : List DeviceRec
  sites : List SiteRec
  devicetypes : List DeviceTypeRec
  deviceroles : List DeviceRoleRec
deriving DecidableEq, Repr

/-- Django `Model.objects.get(**filter)`: the unique matching row, else
`DoesNotExist` / `MultipleObjectsReturned` carrying the model's name. -/
def dget {α : Type} (l : List α) (p : α → Bool) (model : String) : Except Exc α :=
  match l.filter p with
  | [] => .error (.doesNotExist model)
  | [x] => .ok x
  | _ :: _ :: _ => .error (.multipleObjectsReturned model)

/-- Django `get_or_create(**filter)`: reuse the unique matching row, else
insert the row built from the filter values; the insert raises
`IntegrityError` when it collides with an existing row under the table's
uniqueness constraint (`conflict`).  Returns (record, table, created). -/
def getOrCreate {α : Type} (l : List α) (p : α → Bool) (conflict : α → Bool)
    (new : α) (model : String) : Except Exc (α × List α × Bool) :=
  match l.filter p with
  | [] =>
    if l.any conflict then .error (.integrityError model)
    else .ok (new, l ++ [new], true)
  | [x] => .ok (x, l, false)
  | _ :: _ :: _ => .error (.multipleObjectsReturned model)

/-- Django `update_or_create(**match, defaults=...)`: overwrite the unique
matching row with the defaults-built record, else insert it. -/
def updateOrCreate {α : Type} (l : List α) (p : α → Bool) (conflict : α → Bool)
    (new : α) (model : String) : Except Exc (α × List α × Bool) :=
  match l.filter p with
  | [] =>
    if l.any conflict then .error (.integrityError model)
    else .ok (new, l ++ [new], true)
  | [_x] => .ok (new, l.map (fun y => if p y then new else y), false)
  | _ :: _ :: _ => .error (.multipleObjectsReturned model)

/-- Persisting a fetched instance (Django `save`): write the snapshot's
fields over the row(s) with the snapshot's key. -/
def saveRec {α : Type} (l : List α) (pk : α → Bool) (r : α) : List α :=
  l.map (fun x => if pk x then r else x)

/-- Modelled from the spec: the configuration surface (§6) read by
`diffsync_models.py` from `diffsync/defaults.py`, a module of this
repository that is not under `src/`.  The flags are fixed for a batch, so
the embedding passes them as an explicit parameter. -/
structure Config where
  enforce_cluster_group_top_level : Bool
  default_use_clusters : Bool
  default_vsphere_type : String
  default_cluster_name : String
deriving DecidableEq, Repr

/-- A Nautobot store object, as handled by `tag_object` and filed into the
deletion buckets; the constructor records its Python class. -/
inductive NBObject where
  | clustergroup (r : ClusterGroupRec)
  | clustertype (r : ClusterTypeRec)
  | cluster (r : ClusterRec)
  | virtualmachine (r : VMRec)
  | vminterface (r : VMInterfaceRec)
  | ipaddress (r : IPRec)
  | device (r : DeviceRec)
deriving DecidableEq, Repr

/-- Python `obj.__class__.__name__` of a store object. -/
def NBObject.className : NBObject → String
  | .clustergroup _ => "ClusterGroup"
  | .clustertype _ => "ClusterType"
  | .cluster _ => "Cluster"
  | .virtualmachine _ => "VirtualMachine"
  | .vminterface _ => "VMInterface"
  | .ipaddress _ => "IPAddress"
  | .device _ => "Device"

/-- Modelled from the spec: `tag_object` (`utilities/nautobot_utils.py`, a
module of this repository that is not under `src/`) is the adapter's
`tag(record)` bookkeeping call (§6).  The §4.2 update paths mutate a
fetched instance and must "persist" it, and `tag_object` is the only store
call they make after mutating, so it is modelled as persisting the passed
instance — writing its current field values over the row with its key —
besides the tag/timestamp annotation, which the engine never reads. -/
def tagObject (st : Store) (o : NBObject) : Store :=
  match o with
  | .clustergroup r =>
    { st with clustergroups := saveRec st.clustergroups (fun x => x.name == r.name) r }
  | .clustertype r =>
    { st with clustertypes := saveRec st.clustertypes (fun x => x.name == r.name) r }
  | .cluster r =>
    { st with clusters := saveRec st.clusters (fun x => x.name == r.name) r }
  | .virtualmachine r =>
    { st with vms := saveRec st.vms (fun x => x.name == r.name) r }
  | .vminterface r =>
    let pk := fun (x : VMInterfaceRec) => x.name == r.name && x.virtual_machine == r.virtual_machine
    { st with vminterfaces := saveRec st.vminterfaces pk r }
  | .ipaddress r =>
    let pk := fun (x : IPRec) => x.host == r.host && x.prefix_length == r.prefix_length
    { st with ipaddresses := saveRec st.ipaddresses pk r }
  | .device r =>
    { st with devices := saveRec st.devices (fun x => x.name == r.name) r }

/-! ## Ordered deletion -/

/-- The adapter's `objects_to_delete` defaultdict, kept as the
registration-ordered list of (bucket key, object) pairs. -/
abbrev ObjectsToDelete := List (String × NBObject)

/-- Bucket key used by `DiffSyncExtras.ordered_delete`:
`f"_{nautobot_object.__class__.__name__.lower()}"`. -/
def bucketKeyOf (o : NBObject) : String := "_" ++ strLower o.className

/-- `DiffSyncExtras.ordered_delete`: append the store object to its
class-derived bucket of `objects_to_delete`.  The record is not removed
from the store here; `super().delete()` only unregisters the in-memory
node. -/
def ordered_delete (otd : ObjectsToDelete) (o : NBObject) : ObjectsToDelete :=
  otd ++ [(bucketKeyOf o, o)]

/-- Contents of one deletion bucket, in registration order. -/
def bucketOf (otd : ObjectsToDelete) (k : String) : List NBObject :=
  (otd.filter (fun p => p.1 == k)).map (fun p => p.2)

/-- Modelled from the spec: the deletion orchestrator's flush order (§4.3)
— the adapter's end-of-batch flush is code of this repository not under
`src/`.  Buckets are flushed IPAddress → VMInterface → VirtualMachine/Host
(a Host's store object is a Device) → Cluster → ClusterGroup. -/
def flushOrder : List String :=
  ["_ipaddress", "_vminterface", "_virtualmachine", "_device", "_cluster", "_clustergroup"]

/-- Modelled from the spec: the sequence of store deletes the orchestrator
issues at end of batch — the buckets' contents in flush order. -/
def flushSequence (otd : ObjectsToDelete) : List NBObject :=
  (flushOrder.map (bucketOf otd)).flatten

/-! ## DiffSync entity operations

One Lean function per `create` / `update` / `delete` method of
`diffsync/diffsync_models.py`.  A diff attrs dict is a structure whose
`Option` fields conflate an absent key with a `None` value, exactly as the
source's `attrs.get(...)` does; where the source indexes `attrs[...]`
directly the key is present on every reachable path (diffsync passes every
declared attribute to `create`), except where noted. -/

/-- Python truthiness of an optional string value. -/
def truthyS : Option String → Bool
  | some s => s != ""
  | none => false

/-- Python values of a raw attrs dict (used where the source looks up a
key that the typed diff never carries). -/
inductive PyVal where
  | str (s : String)
  | int (n : Int)
  | bool (b : Bool)
  | pynone
deriving DecidableEq, Repr

/-- Python truthiness. -/
def PyVal.truthy : PyVal → Bool
  | .str s => s != ""
  | .int n => n != 0
  | .bool b => b
  | .pynone => false

/-- A Python dict of attribute values. -/
abbrev PyDict := List (String × PyVal)

/-- Python `d.get(k)`: `None` when the key is absent. -/
def pyGet (d : PyDict) (k : String) : PyVal :=
  match d.find? (fun p => p.1 == k) with
  | some p => p.2
  | none => .pynone

/-- Outcome of one entity-level create/update call: the exception escaping
it (`none` when the Python method returned), the store afterwards, the log
lines issued, and whether the in-memory node was registered — i.e. whether
`super().create()` / `super().update()` ran and the method returned the
node rather than falling off an exception path. -/
structure OpResult where
  exc : Option Exc := none
  store : Store
  logs : List String := []
  registered : Bool := false
deriving DecidableEq, Repr

/-- `slugify` of `django.utils.text` (external collaborator), on ASCII
input: lower-case, keep alphanumerics, hyphens and underscores, map spaces
to hyphens, drop the rest.  (Run-collapsing of separators is immaterial
here: no claim inspects a slug's text, and each create path feeds both of
its uses the same name.) -/
def slugify (s : String) : String :=
  String.mk ((s.toList.map Char.toLower).filterMap (fun c =>
    if c.isAlphanum || c == '-' || c == '_' then some c
    else if c == ' ' then some '-' else none))

/-- Identifiers of `DiffSyncClusterGroup` (`_identifiers = ("name",)`). -/
structure ClusterGroupIds where
  name : String
deriving DecidableEq, Repr

/-- `DiffSyncClusterGroup.create`: `ClusterGroup.objects.get_or_create`
on (name, slugified name), then tag; only `IntegrityError` is caught (a
warning); every non-raising path ends in `super().create`. -/
def clusterGroupCreate (ids : ClusterGroupIds) (st : Store) : OpResult :=
  let p := fun (x : ClusterGroupRec) => x.name == ids.name && x.slug == slugify ids.name
  let conflict := fun (x : ClusterGroupRec) => x.name == ids.name
  match getOrCreate st.clustergroups p conflict ⟨ids.name, slugify ids.name⟩ "ClusterGroup" with
  | .ok (rec, tbl, _created) =>
    let st := { st with clustergroups := tbl }
    { store := tagObject st (.clustergroup rec), registered := true }
  | .error (.integrityError _) =>
    { store := st, logs := ["ClusterGroup " ++ ids.name ++ " already exists."],
      registered := true }
  | .error e => { exc := some e, store := st }

/-- Identifiers of `DiffSyncCluster`. -/
structure ClusterIds where
  name : String
deriving DecidableEq, Repr

/-- Attrs of `DiffSyncCluster` (`_attributes = ("cluster_type", "group")`). -/
structure ClusterAttrs where
  cluster_type : Option String
  group : Option String
deriving DecidableEq, Repr

/-- `DiffSyncCluster.create`: get-or-create the default ClusterType, tag
it, get-or-create the Cluster on (name, type), optionally attach the
(get-or-created) group when `attrs["group"]` is truthy, tag the cluster.
One `try` spans all of it; `IntegrityError` from any step is caught with
the (mis-worded) "ClusterGroup ... already exists." warning, and partial
writes done before the failing step stay in place. -/
def clusterCreate (cfg : Config) (ids : ClusterIds) (attrs : ClusterAttrs)
    (st : Store) : OpResult :=
  let caught := fun (st : Store) =>
    { store := st, logs := ["ClusterGroup " ++ ids.name ++ " already exists."],
      registered := true : OpResult }
  let pt := fun (x : ClusterTypeRec) => x.name == cfg.default_vsphere_type
  match getOrCreate st.clustertypes pt pt ⟨cfg.default_vsphere_type⟩ "ClusterType" with
  | .error (.integrityError _) => caught st
  | .error e => { exc := some e, store := st }
  | .ok (ctype, ctTbl, _) =>
  let st := tagObject { st with clustertypes := ctTbl } (.clustertype ctype)
  let pc := fun (x : ClusterRec) => x.name == ids.name && x.type == ctype.name
  let cc := fun (x : ClusterRec) => x.name == ids.name
  match getOrCreate st.clusters pc cc ⟨ids.name, ctype.name, none⟩ "Cluster" with
  | .error (.integrityError _) => caught st
  | .error e => { exc := some e, store := st }
  | .ok (cluster, cTbl, _) =>
  let st := { st with clusters := cTbl }
  match attrs.group with
  | some g =>
    if g != "" then
      let pg := fun (x : ClusterGroupRec) => x.name == g
      match getOrCreate st.clustergroups pg pg ⟨g, ""⟩ "ClusterGroup" with
      | .error (.integrityError _) => caught st
      | .error e => { exc := some e, store := st }
      | .ok (cgrp, cgTbl, _) =>
        let st := { st with clustergroups := cgTbl }
        let cluster := { cluster with group := some cgrp.name }
        { store := tagObject st (.cluster cluster), registered := true }
    else
      { store := tagObject st (.cluster cluster), registered := true }
  | none =>
    { store := tagObject st (.cluster cluster), registered := true }

/-- Identifiers of `DiffSyncVMInterface` (name, virtual_machine). -/
structure VMInterfaceIds where
  name : String
  virtual_machine : String
deriving DecidableEq, Repr

/-- Attrs of `DiffSyncVMInterface` (enabled, mac_address). -/
structure VMInterfaceCreateAttrs where
  enabled : Bool
  mac_address : Option String
deriving DecidableEq, Repr

/-- `DiffSyncVMInterface.create`: get-or-create the interface on
(name, enabled, owning VM, mac_address); the owning-VM lookup's
`DoesNotExist` propagates (only `IntegrityError` is caught), and the
`IntegrityError` handler itself evaluates `obj=vm_interface`, a local that
was never assigned when `get_or_create` raised — Python then raises
`UnboundLocalError` out of the handler. -/
def vmInterfaceCreate (ids : VMInterfaceIds) (attrs : VMInterfaceCreateAttrs)
    (st : Store) : OpResult :=
  match dget st.vms (fun x => x.name == ids.virtual_machine) "VirtualMachine" with
  | .error e => { exc := some e, store := st }
  | .ok vm =>
  let p := fun (x : VMInterfaceRec) =>
    x.name == ids.name && x.enabled == attrs.enabled &&
      x.virtual_machine == vm.name && x.mac_address == attrs.mac_address
  let conflict := fun (x : VMInterfaceRec) =>
    x.virtual_machine == vm.name && x.name == ids.name
  match getOrCreate st.vminterfaces p conflict
      ⟨ids.name, vm.name, attrs.enabled, attrs.mac_address, []⟩ "VMInterface" with
  | .ok (rec, tbl, _) =>
    let st := { st with vminterfaces := tbl }
    { store := tagObject st (.vminterface rec), registered := true }
  | .error (.integrityError _) => { exc := some .unboundLocalError, store := st }
  | .error e => { exc := some e, store := st }

/-- Identifiers of `DiffSyncIpAddress` (ip_address, prefix_length,
mac_address). -/
structure IpAddressIds where
  ip_address : String
  prefix_length : Nat
  mac_address : String
deriving DecidableEq, Repr

/-- Attrs of `DiffSyncIpAddress` (state, vm_interface_name, vm_name). -/
structure IpAddressCreateAttrs where
  state : Option String
  vm_interface_name : Option String
  vm_name : Option String
deriving DecidableEq, Repr

/-- `DiffSyncIpAddress.create`: look up the owning VM, its interface and
the Status (each `DoesNotExist` propagates — only `IntegrityError` is
caught), get-or-create the IPAddress on (address, status), attach it to
the interface and save, tag.  The commented-out primary-IP block of the
source is disabled and therefore absent here.  Like the interface create,
the `IntegrityError` handler evaluates `obj=ip_address` with the local
unassigned and raises `UnboundLocalError`. -/
def ipAddressCreate (ids : IpAddressIds) (attrs : IpAddressCreateAttrs)
    (st : Store) : OpResult :=
  match dget st.vms (fun x => some x.name == attrs.vm_name) "VirtualMachine" with
  | .error e => { exc := some e, store := st }
  | .ok vm =>
  let pi := fun (x : VMInterfaceRec) =>
    some x.name == attrs.vm_interface_name && x.virtual_machine == vm.name
  match dget st.vminterfaces pi "VMInterface" with
  | .error e => { exc := some e, store := st }
  | .ok iface =>
  match dget st.statuses (fun x => some x.name == attrs.state) "Status" with
  | .error e => { exc := some e, store := st }
  | .ok status =>
  let p := fun (x : IPRec) =>
    x.host == ids.ip_address && x.prefix_length == ids.prefix_length &&
      x.status == status.name
  let conflict := fun (x : IPRec) =>
    x.host == ids.ip_address && x.prefix_length == ids.prefix_length
  match getOrCreate st.ipaddresses p conflict
      ⟨ids.ip_address, ids.prefix_length, status.name⟩ "IPAddress" with
  | .error (.integrityError _) => { exc := some .unboundLocalError, store := st }
  | .error e => { exc := some e, store := st }
  | .ok (ip, tbl, _) =>
  let st := { st with ipaddresses := tbl }
  let key : IPKey := (ip.host, ip.prefix_length)
  let newIps := if iface.ip_addresses.contains key then iface.ip_addresses
    else iface.ip_addresses ++ [key]
  let iface := { iface with ip_addresses := newIps }
  let pk := fun (x : VMInterfaceRec) =>
    x.name == iface.name && x.virtual_machine == iface.virtual_machine
  let st := { st with vminterfaces := saveRec st.vminterfaces pk iface }
  { store := tagObject st (.ipaddress ip), registered := true }

/-- Identifiers of `DiffSyncVirtualMachine`. -/
structure VirtualMachineIds where
  name : String
deriving DecidableEq, Repr

/-- Attrs of `DiffSyncVirtualMachine`; `cluster` is in the diff only when
`DEFAULT_USE_CLUSTERS` is set (claim C7), and the create path reads it
only under that flag. -/
structure VirtualMachineCreateAttrs where
  status : Option String
  vcpus : Option Int
  memory : Option Int
  disk : Option Int
  cluster : Option String
  primary_ip4 : Option String
  primary_ip6 : Option String
deriving DecidableEq, Repr

/-- `DiffSyncVirtualMachine.create`: look up the Status and — depending on
`DEFAULT_USE_CLUSTERS` — either look up the named cluster (`DoesNotExist`
propagates) or get-or-create the default ClusterType and Cluster; then
get-or-create the VM on (name, status, cluster, vcpus, memory, disk) and
tag it.  Only `IntegrityError` is caught (warning naming the VM). -/
def virtualMachineCreate (cfg : Config) (ids : VirtualMachineIds)
    (attrs : VirtualMachineCreateAttrs) (st : Store) : OpResult :=
  let caught := fun (st : Store) =>
    { store := st, logs := ["Virtual Machine " ++ ids.name ++ " already exists."],
      registered := true : OpResult }
  match dget st.statuses (fun x => some x.name == attrs.status) "Status" with
  | .error e => { exc := some e, store := st }
  | .ok status =>
  let clusterStep : Except Exc (ClusterRec × Store) :=
    if cfg.default_use_clusters then
      (dget st.clusters (fun x => some x.name == attrs.cluster) "Cluster").map
        (fun c => (c, st))
    else
      let pt := fun (x : ClusterTypeRec) => x.name == cfg.default_vsphere_type
      match getOrCreate st.clustertypes pt pt ⟨cfg.default_vsphere_type⟩ "ClusterType" with
      | .error e => .error e
      | .ok (ctype, ctTbl, _) =>
        let st := tagObject { st with clustertypes := ctTbl } (.clustertype ctype)
        let pc := fun (x : ClusterRec) =>
          x.name == cfg.default_cluster_name && x.type == ctype.name
        let cc := fun (x : ClusterRec) => x.name == cfg.default_cluster_name
        match getOrCreate st.clusters pc cc
            ⟨cfg.default_cluster_name, ctype.name, none⟩ "Cluster" with
        | .error e => .error e
        | .ok (cluster, cTbl, _) =>
          let st := { st with clusters := cTbl }
          .ok (cluster, tagObject st (.cluster cluster))
  match clusterStep with
  | .error (.integrityError _) => caught st
  | .error e => { exc := some e, store := st }
  | .ok (cluster, st) =>
  let p := fun (x : VMRec) =>
    x.name == ids.name && x.status == status.name && x.cluster == cluster.name &&
      x.vcpus == attrs.vcpus && x.memory == attrs.memory && x.disk == attrs.disk
  let conflict := fun (x : VMRec) => x.name == ids.name
  match getOrCreate st.vms p conflict
      ⟨ids.name, status.name, cluster.name, attrs.vcpus, attrs.memory, attrs.disk,
        none, none⟩ "VirtualMachine" with
  | .ok (vm, tbl, _) =>
    let st := { st with vms := tbl }
    { store := tagObject st (.virtualmachine vm), registered := true }
  | .error (.integrityError _) => caught st
  | .error e => { exc := some e, store := st }

/-- Identifiers of `DiffSyncHost`. -/
structure HostIds where
  name : String
deriving DecidableEq, Repr

/-- Attrs of `DiffSyncHost`; `cluster` is in the diff only when
`DEFAULT_USE_CLUSTERS` is set, yet the create path reads `attrs["cluster"]`
unconditionally — `none` here stands for the key being absent, which makes
that read raise (`KeyError`; with the key present but `None` Django's
lookup would raise `Cluster.DoesNotExist` instead — both escape `create`
untouched by its handlers, and no claim tells them apart). -/
structure HostCreateAttrs where
  device_role : String
  device_type : String
  site : String
  cluster : Option String
deriving DecidableEq, Repr

/-- `DiffSyncHost.create`: look up Status "Active", the DeviceType, the
DeviceRole and the Cluster — each `DoesNotExist` propagates — then the
Site inside an inner `try` whose `except Exception` logs "No site found"
and returns `super().create(...)` with the store write skipped; otherwise
`update_or_create` the Device on a case-insensitive name match and tag it.
The outer handler catches only `IntegrityError`. -/
def hostCreate (ids : HostIds) (attrs : HostCreateAttrs) (st : Store) : OpResult :=
  match dget st.statuses (fun x => x.name == "Active") "Status" with
  | .error e => { exc := some e, store := st }
  | .ok status =>
  match dget st.devicetypes (fun x => x.model == attrs.device_type) "DeviceType" with
  | .error e => { exc := some e, store := st }
  | .ok device_t =>
  match dget st.deviceroles (fun x => x.name == attrs.device_role) "DeviceRole" with
  | .error e => { exc := some e, store := st }
  | .ok device_r =>
  match attrs.cluster with
  | none => { exc := some (.keyError "cluster"), store := st }
  | some cl =>
  match dget st.clusters (fun x => x.name == cl) "Cluster" with
  | .error e => { exc := some e, store := st }
  | .ok cluster =>
  match dget st.sites (fun x => x.slug == attrs.site) "Site" with
  | .error _ =>
    { store := st, logs := ["No site found for " ++ attrs.site ++ "."],
      registered := true }
  | .ok site =>
  let p := fun (x : DeviceRec) => strLower x.name == strLower ids.name
  let conflict := fun (x : DeviceRec) => x.name == ids.name
  match updateOrCreate st.devices p conflict
      ⟨ids.name, status.name, device_r.name, device_t.model, cluster.name,
        site.slug⟩ "Device" with
  | .ok (dev, tbl, _) =>
    let st := { st with devices := tbl }
    { store := tagObject st (.device dev), registered := true }
  | .error (.integrityError _) =>
    { store := st, logs := ["Host " ++ ids.name ++ " already exists."],
      registered := true }
  | .error e => { exc := some e, store := st }

/-! ### Delete operations

Each `delete` looks the store object up and hands it to `ordered_delete`;
an outcome carries the deletion buckets besides the store. -/

/-- Outcome of one entity-level delete call.  `returnedSelf` is whether the
method reached `return self` (as opposed to logging and returning `None`,
or raising). -/
structure DelResult where
  exc : Option Exc := none
  store : Store
  otd : ObjectsToDelete
  logs : List String := []
  returnedSelf : Bool := false
deriving DecidableEq, Repr

/-- In-memory `DiffSyncClusterGroup` node (`self`). -/
structure DSClusterGroup where
  name : String
deriving DecidableEq, Repr

/-- In-memory `DiffSyncCluster` node. -/
structure DSCluster where
  name : String
deriving DecidableEq, Repr

/-- In-memory `DiffSyncVMInterface` node. -/
structure DSVMInterface where
  name : String
  virtual_machine : String
  enabled : Bool
  mac_address : Option String
deriving DecidableEq, Repr

/-- In-memory `DiffSyncIpAddress` node. -/
structure DSIpAddress where
  ip_address : String
  prefix_length : Nat
  mac_address : String
  state : String
deriving DecidableEq, Repr

/-- In-memory `DiffSyncVirtualMachine` node (fields the operations read). -/
structure DSVirtualMachine where
  name : String
deriving DecidableEq, Repr

/-- In-memory `DiffSyncHost` node. -/
structure DSHost where
  name : String
deriving DecidableEq, Repr

/-- `DiffSyncClusterGroup.delete`: register the matched ClusterGroup for
ordered deletion; `ClusterGroup.DoesNotExist` is caught and logged. -/
def clusterGroupDelete (node : DSClusterGroup) (st : Store) (otd : ObjectsToDelete) :
    DelResult :=
  match dget st.clustergroups (fun x => x.name == node.name) "ClusterGroup" with
  | .ok rec =>
    { store := st, otd := ordered_delete otd (.clustergroup rec), returnedSelf := true }
  | .error (.doesNotExist "ClusterGroup") =>
    { store := st, otd := otd,
      logs := ["Unable to match Cluster Group by name, " ++ node.name] }
  | .error e => { exc := some e, store := st, otd := otd }

/-- `DiffSyncCluster.delete`: register the matched Cluster for ordered
deletion; `Cluster.DoesNotExist` is caught and logged. -/
def clusterDelete (node : DSCluster) (st : Store) (otd : ObjectsToDelete) : DelResult :=
  match dget st.clusters (fun x => x.name == node.name) "Cluster" with
  | .ok rec =>
    { store := st, otd := ordered_delete otd (.cluster rec), returnedSelf := true }
  | .error (.doesNotExist "Cluster") =>
    { store := st, otd := otd, logs := ["Unable to match Cluster by name, " ++ node.name] }
  | .error e => { exc := some e, store := st, otd := otd }

/-- Modelled from netutils (external collaborator): MAC-format validity —
six colon-separated groups of two hexadecimal digits.  (The further
formats netutils accepts never decide a claim: validity only selects which
filter the interface delete uses.)  The source passes the node's
`Optional[str]` straight in, so the caller handles the `None` case. -/
def is_valid_mac (m : String) : Bool :=
  let groups := charSplit ':' m.toList
  groups.length == 6 && groups.all (fun g =>
    g.length == 2 && g.all (fun c => "0123456789abcdefABCDEF".toList.contains c))

/-- `DiffSyncVMInterface.delete`: fetch the interface — filtering on the
mac address too when it is format-valid — and register it for ordered
deletion.  `VMInterface.DoesNotExist` is caught and logged; the inner
owning-VM lookup's `VirtualMachine.DoesNotExist` is not.  A `None`
mac_address reaches `re.match` inside netutils' `is_valid_mac` and raises
`TypeError`. -/
def vmInterfaceDelete (node : DSVMInterface) (st : Store) (otd : ObjectsToDelete) :
    DelResult :=
  match node.mac_address with
  | none => { exc := some .typeError, store := st, otd := otd }
  | some mac =>
  match dget st.vms (fun x => x.name == node.virtual_machine) "VirtualMachine" with
  | .error e => { exc := some e, store := st, otd := otd }
  | .ok vm =>
  let pm := fun (x : VMInterfaceRec) =>
    x.name == node.name && x.virtual_machine == vm.name && x.mac_address == some mac
  let pn := fun (x : VMInterfaceRec) =>
    x.name == node.name && x.virtual_machine == vm.name
  match (if is_valid_mac mac then dget st.vminterfaces pm "VMInterface"
      else dget st.vminterfaces pn "VMInterface") with
  | .ok rec =>
    { store := st, otd := ordered_delete otd (.vminterface rec), returnedSelf := true }
  | .error (.doesNotExist "VMInterface") =>
    { store := st, otd := otd,
      logs := ["Unable to match VMInterface by name, " ++ node.name] }
  | .error e => { exc := some e, store := st, otd := otd }

/-- `DiffSyncIpAddress.delete`: register the IPAddress matched on
(host, prefix_length) for ordered deletion; `IPAddress.DoesNotExist` is
caught and logged. -/
def ipAddressDelete (node : DSIpAddress) (st : Store) (otd : ObjectsToDelete) :
    DelResult :=
  let p := fun (x : IPRec) =>
    x.host == node.ip_address && x.prefix_length == node.prefix_length
  match dget st.ipaddresses p "IPAddress" with
  | .ok rec =>
    { store := st, otd := ordered_delete otd (.ipaddress rec), returnedSelf := true }
  | .error (.doesNotExist "IPAddress") =>
    { store := st, otd := otd,
      logs := ["Unable to match IPAddress by host " ++ node.ip_address ++
        " and Prefix Length " ++ toString node.prefix_length] }
  | .error e => { exc := some e, store := st, otd := otd }

/-- `DiffSyncVirtualMachine.delete`: register the matched VirtualMachine
for ordered deletion; `VirtualMachine.DoesNotExist` is caught and logged. -/
def virtualMachineDelete (node : DSVirtualMachine) (st : Store) (otd : ObjectsToDelete) :
    DelResult :=
  match dget st.vms (fun x => x.name == node.name) "VirtualMachine" with
  | .ok rec =>
    { store := st, otd := ordered_delete otd (.virtualmachine rec), returnedSelf := true }
  | .error (.doesNotExist "VirtualMachine") =>
    { store := st, otd := otd,
      logs := ["Unable to match VirtualMachine by name, " ++ node.name] }
  | .error e => { exc := some e, store := st, otd := otd }

/-- `DiffSyncHost.delete`: fetches the Device by name, but its handler
reads `except VirtualMachine.DoesNotExist` — an exception a failed Device
lookup never raises, so the log-and-skip branch below is dead and the
lookup's `Device.DoesNotExist` escapes. -/
def hostDelete (node : DSHost) (st : Store) (otd : ObjectsToDelete) : DelResult :=
  match dget st.devices (fun x => x.name == node.name) "Device" with
  | .ok rec =>
    { store := st, otd := ordered_delete otd (.device rec), returnedSelf := true }
  | .error (.doesNotExist "VirtualMachine") =>
    { store := st, otd := otd, logs := ["Unable to match Host by name, " ++ node.name] }
  | .error e => { exc := some e, store := st, otd := otd }

/-! ### Update operations -/

/-- `DiffSyncCluster.update`: no `try` at all — the initial
`Cluster.objects.get` raises `Cluster.DoesNotExist` out of the method when
the row is absent.  Truthy `group` re-attaches a (get-or-created) group;
truthy `cluster_type` resets the type to the default; the mutations reach
the store only through `tag_object`.  The method never calls
`super().update`. -/
def clusterUpdate (cfg : Config) (node : DSCluster) (attrs : ClusterAttrs)
    (st : Store) : OpResult :=
  match dget st.clusters (fun x => x.name == node.name) "Cluster" with
  | .error e => { exc := some e, store := st }
  | .ok cluster =>
  let pt := fun (x : ClusterTypeRec) => x.name == cfg.default_vsphere_type
  match getOrCreate st.clustertypes pt pt ⟨cfg.default_vsphere_type⟩ "ClusterType" with
  | .error e => { exc := some e, store := st }
  | .ok (ctype, ctTbl, _) =>
  let st := { st with clustertypes := ctTbl }
  let groupStep : Except Exc (ClusterRec × Store) :=
    match attrs.group with
    | some g =>
      if g != "" then
        let pg := fun (x : ClusterGroupRec) => x.name == g
        match getOrCreate st.clustergroups pg pg ⟨g, ""⟩ "ClusterGroup" with
        | .error e => .error e
        | .ok (cgrp, cgTbl, _) =>
          .ok ({ cluster with group := some cgrp.name }, { st with clustergroups := cgTbl })
      else .ok (cluster, st)
    | none => .ok (cluster, st)
  match groupStep with
  | .error e => { exc := some e, store := st }
  | .ok (cluster, st) =>
  let cluster := if truthyS attrs.cluster_type then { cluster with type := ctype.name }
    else cluster
  { store := tagObject st (.cluster cluster) }

/-- Diff attrs of `DiffSyncVMInterface.update`. -/
structure VMInterfaceUpdateAttrs where
  enabled : Option Bool
  mac_address : Option String
deriving DecidableEq, Repr

/-- `DiffSyncVMInterface.update`: fetch the interface through its owning
VM, apply the truthy diff attributes to the instance and persist through
`tag_object`.  The handler catches only `VirtualMachine.DoesNotExist`
(logged); a missing interface raises `VMInterface.DoesNotExist` out of the
method. -/
def vmInterfaceUpdate (node : DSVMInterface) (attrs : VMInterfaceUpdateAttrs)
    (st : Store) : OpResult :=
  match dget st.vms (fun x => x.name == node.virtual_machine) "VirtualMachine" with
  | .error (.doesNotExist "VirtualMachine") =>
    { store := st, logs := ["Unable to match VM Interface by name, " ++ node.name ++
        " and VM " ++ node.virtual_machine] }
  | .error e => { exc := some e, store := st }
  | .ok vm =>
  let p := fun (x : VMInterfaceRec) =>
    x.name == node.name && x.virtual_machine == vm.name
  match dget st.vminterfaces p "VMInterface" with
  | .error e => { exc := some e, store := st }
  | .ok iface =>
  let iface := match attrs.enabled with
    | some b => if b then { iface with enabled := b } else iface
    | none => iface
  let iface := match attrs.mac_address with
    | some m => if m != "" then { iface with mac_address := some m } else iface
    | none => iface
  { store := tagObject st (.vminterface iface), registered := true }

/-- `DiffSyncIpAddress.update`: fetch the IPAddress on
(host, prefix_length) — `IPAddress.DoesNotExist` is caught and logged —
then test `attrs.get("status")`.  The declared attributes of the model are
(state, vm_interface_name, vm_name), so a diff never carries a "status"
key and the branch is dead; were it taken, `Status.objects.get` is handed
a positional string, which Django rejects (the precise exception is
immaterial, the embedding uses `TypeError`).  No diff attribute is ever
written to the record; `tag_object` persists it unchanged. -/
def ipAddressUpdate (node : DSIpAddress) (attrs : PyDict) (st : Store) : OpResult :=
  let p := fun (x : IPRec) =>
    x.host == node.ip_address && x.prefix_length == node.prefix_length
  match dget st.ipaddresses p "IPAddress" with
  | .error (.doesNotExist "IPAddress") =>
    { store := st, logs := ["Unable to match IPAddress by host " ++ node.ip_address ++
        " and Prefix Length " ++ toString node.prefix_length] }
  | .error e => { exc := some e, store := st }
  | .ok ip =>
  if (pyGet attrs "status").truthy then { exc := some .typeError, store := st }
  else { store := tagObject st (.ipaddress ip), registered := true }

/-- Diff attrs of `DiffSyncVirtualMachine.update`. -/
structure VirtualMachineUpdateAttrs where
  status : Option String
  vcpus : Option Int
  memory : Option Int
  disk : Option Int
  cluster : Option String
  primary_ip4 : Option String
  primary_ip6 : Option String
deriving DecidableEq, Repr

/-- IP version of an address string, as Python's `ipaddress` module
reports it for the `host` strings stored here: 6 when the host contains a
colon, else 4. -/
def ipVersion (host : String) : Nat := if host.toList.contains ':' then 6 else 4

/-- `attrs.get(f"primary_ip{version}")`. -/
def primaryOf (attrs : VirtualMachineUpdateAttrs) (version : Nat) : Option String :=
  if version == 4 then attrs.primary_ip4
  else if version == 6 then attrs.primary_ip6
  else none

/-- `setattr(parent, f"primary_ip{version}", ip_address)` on a VM
instance. -/
def setPrimary (vm : VMRec) (version : Nat) (k : IPKey) : VMRec :=
  if version == 4 then { vm with primary_ip4 := some k }
  else if version == 6 then { vm with primary_ip6 := some k }
  else vm

/-- IP rows of an interface, in the order of its `ip_addresses` relation. -/
def ipsOf (st : Store) (iface : VMInterfaceRec) : List IPRec :=
  iface.ip_addresses.filterMap (fun k =>
    st.ipaddresses.find? (fun x => x.host == k.1 && x.prefix_length == k.2))

/-- One iteration of the inner `for ip_address in interface.ip_addresses
.all()` loop.  `interface.parent` is a lazily fetched, per-interface
snapshot of the owning VM's row, carried as the second component: the
first matching IP address fetches it (the `.getD fallback` is dead — the
row fetched at the start of `update` is still present, saves only
overwrite), later matches of the same interface mutate the cached
snapshot, and each match saves it back; `interface.save()` rewrites the
interface row with its unchanged snapshot. -/
def primaryInnerStep (attrs : VirtualMachineUpdateAttrs) (vmName : String)
    (iface : VMInterfaceRec) (acc : Store × Option VMRec) (ip : IPRec) :
    Store × Option VMRec :=
  let v := ipVersion ip.host
  if primaryOf attrs v == some ip.host then
    let fallback : VMRec := ⟨vmName, "", "", none, none, none, none, none⟩
    let parent := match acc.2 with
      | some cached => cached
      | none => ((acc.1.vms.find? (fun x => x.name == vmName)).getD fallback)
    let parent := setPrimary parent v (ip.host, ip.prefix_length)
    let st1 := { acc.1 with vms := saveRec acc.1.vms (fun x => x.name == vmName) parent }
    let pk := fun (x : VMInterfaceRec) =>
      x.name == iface.name && x.virtual_machine == iface.virtual_machine
    let st1 := { st1 with vminterfaces := saveRec st1.vminterfaces pk iface }
    (st1, some parent)
  else acc

/-- The primary-IP loop body for one interface: fold the inner step over
the interface's IP rows, starting with no parent snapshot cached. -/
def primaryLoopIface (attrs : VirtualMachineUpdateAttrs) (vmName : String)
    (st : Store) (iface : VMInterfaceRec) : Store :=
  ((ipsOf st iface).foldl (primaryInnerStep attrs vmName iface) (st, none)).1

/-- The pure effect of one interface/IP iteration on the owning VM row: an
IP whose host equals the configured primary of its version sets that
version's pointer, any other IP leaves the row unchanged. -/
def primaryStep (attrs : VirtualMachineUpdateAttrs) (vm : VMRec) (ip : IPRec) : VMRec :=
  let v := ipVersion ip.host
  if primaryOf attrs v == some ip.host then
    setPrimary vm v (ip.host, ip.prefix_length)
  else vm

/-- Every interface/IP pair owned by the VM, in iteration order. -/
def vmPairs (st : Store) (vmName : String) : List IPRec :=
  ((st.vminterfaces.filter (fun x => x.virtual_machine == vmName)).map (ipsOf st)).flatten

/-- Last-match-wins accumulator for the primary pointer of version `v`. -/
def lastStep (attrs : VirtualMachineUpdateAttrs) (v : Nat)
    (acc : Option IPKey) (ip : IPRec) : Option IPKey :=
  if ipVersion ip.host == v && primaryOf attrs v == some ip.host then
    some (ip.host, ip.prefix_length)
  else acc

/-- The key of the last interface/IP pair (in iteration order) whose host
equals the configured primary address of version `v`. -/
def lastPrimaryMatch (pairs : List IPRec) (attrs : VirtualMachineUpdateAttrs)
    (v : Nat) : Option IPKey :=
  pairs.foldl (lastStep attrs v) none

/-- The `primary_ip4`/`primary_ip6` loop of `DiffSyncVirtualMachine.update`:
`for interface in virtual_machine.interfaces.all(): for ip_address in
interface.ip_addresses.all(): ...` — every interface/IP pair owned by the
VM, in store order. -/
def primaryLoop (attrs : VirtualMachineUpdateAttrs) (vmName : String)
    (st : Store) : Store :=
  (st.vminterfaces.filter (fun x => x.virtual_machine == vmName)).foldl
    (primaryLoopIface attrs vmName) st

/-- The truthiness-guarded vcpus/memory/disk/cluster mutations of
`DiffSyncVirtualMachine.update` on the fetched instance (the cluster name
is applied only under `DEFAULT_USE_CLUSTERS` and only when it differs). -/
def applyVMAttrs (cfg : Config) (vm : VMRec) (attrs : VirtualMachineUpdateAttrs) : VMRec :=
  let vm := match attrs.vcpus with
    | some n => if n != 0 then { vm with vcpus := some n } else vm
    | none => vm
  let vm := match attrs.memory with
    | some n => if n != 0 then { vm with memory := some n } else vm
    | none => vm
  let vm := match attrs.disk with
    | some n => if n != 0 then { vm with disk := some n } else vm
    | none => vm
  if cfg.default_use_clusters then
    match attrs.cluster with
    | some c => if c != "" then (if vm.cluster != c then { vm with cluster := c } else vm)
        else vm
    | none => vm
  else vm

/-- `DiffSyncVirtualMachine.update`: fetch the VM (its `DoesNotExist` is
caught and logged), apply truthy status/vcpus/memory/disk — a missing
Status raises `Status.DoesNotExist`, which the handler does not catch —
apply the cluster name under `DEFAULT_USE_CLUSTERS` when it differs, run
the primary-IP loop when the diff carries a truthy primary address, then
`tag_object(virtual_machine)` — persisting the instance fetched at the
start, whose primary pointers are the pre-loop ones. -/
def virtualMachineUpdate (cfg : Config) (node : DSVirtualMachine)
    (attrs : VirtualMachineUpdateAttrs) (st : Store) : OpResult :=
  match dget st.vms (fun x => x.name == node.name) "VirtualMachine" with
  | .error (.doesNotExist "VirtualMachine") =>
    { store := st, logs := ["Unable to match VirtualMachine by name, " ++ node.name] }
  | .error e => { exc := some e, store := st }
  | .ok vm0 =>
  let statusStep : Except Exc VMRec :=
    match attrs.status with
    | some s =>
      if s != "" then
        (dget st.statuses (fun x => x.name == s) "Status").map
          (fun stt => { vm0 with status := stt.name })
      else .ok vm0
    | none => .ok vm0
  match statusStep with
  | .error e => { exc := some e, store := st }
  | .ok vm1 =>
  let vm1 := applyVMAttrs cfg vm1 attrs
  let st1 := if truthyS attrs.primary_ip4 || truthyS attrs.primary_ip6 then
      primaryLoop attrs vm0.name st
    else st
  { store := tagObject st1 (.virtualmachine vm1), registered := true }

/-- Diff attrs of `DiffSyncHost.update` (site is declared but the method
has no branch for it). -/
structure HostUpdateAttrs where
  device_role : Option String
  device_type : Option String
  site : Option String
  cluster : Option String
deriving DecidableEq, Repr

/-- `DiffSyncHost.update`: fetch the Device and apply truthy device_type /
device_role / cluster through their lookups, persisting via `tag_object`.
The handler reads `except VirtualMachine.DoesNotExist`, which none of the
lookups here raise (they raise the Device / DeviceType / DeviceRole /
Cluster variants), so the log branch is dead and every lookup failure
escapes. -/
def hostUpdate (node : DSHost) (attrs : HostUpdateAttrs) (st : Store) : OpResult :=
  match dget st.devices (fun x => x.name == node.name) "Device" with
  | .error (.doesNotExist "VirtualMachine") =>
    { store := st, logs := ["Unable to match Host by name, " ++ node.name] }
  | .error e => { exc := some e, store := st }
  | .ok dev =>
  let typeStep : Except Exc DeviceRec :=
    match attrs.device_type with
    | some t =>
      if t != "" then
        (dget st.devicetypes (fun x => x.model == t) "DeviceType").map
          (fun dt => { dev with device_type := dt.model })
      else .ok dev
    | none => .ok dev
  match typeStep with
  | .error e => { exc := some e, store := st }
  | .ok dev =>
  let roleStep : Except Exc DeviceRec :=
    match attrs.device_role with
    | some r =>
      if r != "" then
        (dget st.deviceroles (fun x => x.name == r) "DeviceRole").map
          (fun dr => { dev with device_role := dr.name })
      else .ok dev
    | none => .ok dev
  match roleStep with
  | .error e => { exc := some e, store := st }
  | .ok dev =>
  let clusterStep : Except Exc DeviceRec :=
    match attrs.cluster with
    | some c =>
      if c != "" then
        (dget st.clusters (fun x => x.name == c) "Cluster").map
          (fun cl => { dev with cluster := cl.name })
      else .ok dev
    | none => .ok dev
  match clusterStep with
  | .error e => { exc := some e, store := st }
  | .ok dev =>
  { store := tagObject st (.device dev), registered := true }

/-! ### Class tests on store objects and schema tuples -/

/-- Whether a filed store object is an IPAddress. -/
def NBObject.isIpAddress : NBObject → Bool
  | .ipaddress _ => true
  | _ => false

/-- Whether a filed store object is a VMInterface. -/
def NBObject.isVMInterface : NBObject → Bool
  | .vminterface _ => true
  | _ => false

/-- Whether a filed store object is a VirtualMachine. -/
def NBObject.isVirtualMachine : NBObject → Bool
  | .virtualmachine _ => true
  | _ => false

/-- `DiffSyncVirtualMachine._attributes`: the comparable attribute tuple,
selected at class-definition time by `DEFAULT_USE_CLUSTERS`. -/
def DiffSyncVirtualMachine_attributes (cfg : Config) : List String :=
  if cfg.default_use_clusters then
    ["status", "vcpus", "memory", "disk", "cluster", "primary_ip4", "primary_ip6"]
  else
    ["status", "vcpus", "memory", "disk", "primary_ip4", "primary_ip6"]

/-- `DiffSyncHost._attributes`, likewise selected by
`DEFAULT_USE_CLUSTERS`. -/
def DiffSyncHost_attributes (cfg : Config) : List String :=
  if cfg.default_use_clusters then ["device_role", "device_type", "site", "cluster"]
  else ["device_role", "device_type", "site"]

/-- A small concrete store populated with one record of every kind, used
by witnesses and counterexamples. -/
def exampleStore : Store :=
  { clustergroups := [⟨"cg1", "cg1"⟩],
    clustertypes := [⟨"vSphere"⟩],
    clusters := [⟨"c1", "vSphere", none⟩],
    statuses := [⟨"Active"⟩, ⟨"Suspended"⟩],
    vms := [⟨"vm1", "Active", "c1", none, none, none, none, none⟩],
    vminterfaces := [⟨"eth0", "vm1", true, some "aa:bb:cc:dd:ee:ff", [("10.0.0.5", 24)]⟩],
    ipaddresses := [⟨"10.0.0.5", 24, "Active"⟩],
    devices := [⟨"esx1", "Active", "Host", "ESXi", "c1", "gtn"⟩],
    sites := [⟨"gtn"⟩],
    devicetypes := [⟨"ESXi"⟩],
    deviceroles := [⟨"Host"⟩] }

/-! ## Claims about the site/service classifier -/

set_option maxRecDepth 8192 in
/-- C5: `parse_organization_for_site_service` iterates every
(code, pattern list) mapping with no early exit, so the last matching
pattern in iteration order determines the result; the final `split`
mapping — whose pattern `^JUPITER-` matches the literal organization
"JUPITER-GTN" — overwrites any working (service, site) state with
("JUPITER", "GTN"), and the function returns exactly ("j1", "gtn"). -/
theorem parse_organization_last_split_match_wins_on_jupiter_gtn :
    regexSearch "^JUPITER-" "JUPITER-GTN" = true ∧
    ORGANIZATION_DC_MAPPINGS.getLast? =
      some ("split", ["^JUPITER-", "^JUP2-", "^J1", "^J2", "^J3"]) ∧
    (∀ st : String × String,
      orgMapping "JUPITER-GTN" (Except.ok st)
        ("split", ["^JUPITER-", "^JUP2-", "^J1", "^J2", "^J3"]) =
        Except.ok ("JUPITER", "GTN")) ∧
    parse_organization_for_site_service "JUPITER-GTN" = Except.ok ("j1", "gtn") :=
  ⟨rfl, rfl, fun _st => rfl, rfl⟩

/-- C10: for every device name, `parse_name_for_service` returns "j3" when
the name matches `^J3` case-insensitively and "hns" otherwise, and never
returns "unknown", "j1" or "j2": each non-matching pattern overwrites the
working result with "hns" and the `j3` mapping is iterated last. -/
theorem parse_name_for_service_j3_or_hns (device_name : String) :
    parse_name_for_service device_name =
      (if regexSearch "^J3" device_name then "j3" else "hns") ∧
    parse_name_for_service device_name ≠ "unknown" ∧
    parse_name_for_service device_name ≠ "j1" ∧
    parse_name_for_service device_name ≠ "j2" := by
  have h : parse_name_for_service device_name =
      (if regexSearch "^J3" device_name then "j3" else "hns") := by
    simp only [parse_name_for_service, SERVICE_MAPPINGS, List.foldl_cons, List.foldl_nil]
  rw [h]
  cases regexSearch "^J3" device_name <;> exact ⟨rfl, by decide, by decide, by decide⟩

/-! ## Ordered deletion (C1) -/

/-- An object's class test matches exactly its bucket key. -/
theorem bucketKeyOf_classes (x : NBObject) :
    (x.isIpAddress = true ↔ bucketKeyOf x = "_ipaddress") ∧
    (x.isVMInterface = true ↔ bucketKeyOf x = "_vminterface") ∧
    (x.isVirtualMachine = true ↔ bucketKeyOf x = "_virtualmachine") := by
  cases x <;>
    simp only [NBObject.isIpAddress, NBObject.isVMInterface, NBObject.isVirtualMachine,
      bucketKeyOf, NBObject.className] <;>
    decide

/-- In a well-keyed `objects_to_delete` (each pair carries the key
`ordered_delete` computes for its object), bucket membership determines
the object's key. -/
theorem mem_bucketOf_key {otd : ObjectsToDelete} {k : String} {x : NBObject}
    (hw : ∀ p ∈ otd, p.1 = bucketKeyOf p.2) (hx : x ∈ bucketOf otd k) :
    bucketKeyOf x = k := by
  simp only [bucketOf, List.mem_map, List.mem_filter] at hx
  obtain ⟨p, ⟨hmem, hk⟩, rfl⟩ := hx
  have hk' : p.1 = k := by simpa using hk
  rw [← hw p hmem, hk']

/-- In a concatenation whose left part contains no `q`-element and whose
right part contains no `p`-element, every `p`-position precedes every
`q`-position. -/
theorem stage_lt {α : Type} (s xs ys : List α) (p q : α → Bool)
    (hs : s = xs ++ ys)
    (hx : ∀ x ∈ xs, q x = false) (hy : ∀ y ∈ ys, p y = false)
    (i j : Nat) (hi : i < s.length) (hj : j < s.length)
    (hpi : p (s.get ⟨i, hi⟩) = true) (hqj : q (s.get ⟨j, hj⟩) = true) : i < j := by
  subst hs
  simp only [List.get_eq_getElem] at hpi hqj
  have hilt : i < xs.length := by
    by_contra hge
    push_neg at hge
    rw [List.getElem_append_right hge] at hpi
    rw [hy _ (List.getElem_mem _)] at hpi
    exact Bool.false_ne_true hpi
  have hjge : xs.length ≤ j := by
    by_contra hlt
    push_neg at hlt
    rw [List.getElem_append_left hlt] at hqj
    rw [hx _ (List.getElem_mem _)] at hqj
    exact Bool.false_ne_true hqj
  omega

/-- Every IPAddress position in the flush sequence precedes every
VMInterface position. -/
theorem flush_ip_before_iface (otd : ObjectsToDelete)
    (hw : ∀ p ∈ otd, p.1 = bucketKeyOf p.2)
    (i j : Nat) (hi : i < (flushSequence otd).length)
    (hj : j < (flushSequence otd).length)
    (hip : ((flushSequence otd).get ⟨i, hi⟩).isIpAddress = true)
    (hif : ((flushSequence otd).get ⟨j, hj⟩).isVMInterface = true) : i < j := by
  have keyOf : ∀ (y : NBObject) (k : String), y ∈ bucketOf otd k → bucketKeyOf y = k :=
    fun y k h => mem_bucketOf_key hw h
  refine stage_lt (flushSequence otd) (bucketOf otd "_ipaddress")
      (bucketOf otd "_vminterface" ++ (bucketOf otd "_virtualmachine" ++
        (bucketOf otd "_device" ++ (bucketOf otd "_cluster" ++
          (bucketOf otd "_clustergroup" ++ [])))))
      NBObject.isIpAddress NBObject.isVMInterface rfl ?_ ?_ i j hi hj hip hif
  · intro x hx
    by_contra ht
    rw [Bool.not_eq_false] at ht
    have hk := (bucketKeyOf_classes x).2.1.mp ht
    exact absurd ((keyOf x _ hx).symm.trans hk) (by decide)
  · intro y hmem
    by_contra ht
    rw [Bool.not_eq_false] at ht
    have hk := (bucketKeyOf_classes y).1.mp ht
    simp only [List.mem_append, List.not_mem_nil, or_false] at hmem
    rcases hmem with h | h | h | h | h <;>
      exact absurd ((keyOf y _ h).symm.trans hk) (by decide)

/-- Every VMInterface position in the flush sequence precedes every
VirtualMachine position. -/
theorem flush_iface_before_vm (otd : ObjectsToDelete)
    (hw : ∀ p ∈ otd, p.1 = bucketKeyOf p.2)
    (i j : Nat) (hi : i < (flushSequence otd).length)
    (hj : j < (flushSequence otd).length)
    (hif : ((flushSequence otd).get ⟨i, hi⟩).isVMInterface = true)
    (hvm : ((flushSequence otd).get ⟨j, hj⟩).isVirtualMachine = true) : i < j := by
  have keyOf : ∀ (y : NBObject) (k : String), y ∈ bucketOf otd k → bucketKeyOf y = k :=
    fun y k h => mem_bucketOf_key hw h
  refine stage_lt (flushSequence otd)
      (bucketOf otd "_ipaddress" ++ bucketOf otd "_vminterface")
      (bucketOf otd "_virtualmachine" ++
        (bucketOf otd "_device" ++ (bucketOf otd "_cluster" ++
          (bucketOf otd "_clustergroup" ++ []))))
      NBObject.isVMInterface NBObject.isVirtualMachine
      (by rw [List.append_assoc]; exact rfl) ?_ ?_
      i j hi hj hif hvm
  · intro x hmem
    by_contra ht
    rw [Bool.not_eq_false] at ht
    have hk := (bucketKeyOf_classes x).2.2.mp ht
    simp only [List.mem_append] at hmem
    rcases hmem with h | h <;>
      exact absurd ((keyOf x _ h).symm.trans hk) (by decide)
  · intro y hmem
    by_contra ht
    rw [Bool.not_eq_false] at ht
    have hk := (bucketKeyOf_classes y).2.1.mp ht
    simp only [List.mem_append, List.not_mem_nil, or_false] at hmem
    rcases hmem with h | h | h | h <;>
      exact absurd ((keyOf y _ h).symm.trans hk) (by decide)

/-- C1 as frozen is false at this input: `ordered_delete` files the
matched IPAddress under the bucket key "_ipaddress" — an underscore
followed by the lowercased class name — so the bucket named by the claim's
key, the lowercased class name "ipaddress" alone, stays empty. -/
theorem ordered_delete_bucket_key_is_underscored :
    (ipAddressDelete ⟨"10.0.0.5", 24, "aa:bb:cc:dd:ee:ff", "Active"⟩ exampleStore []).otd =
      [("_ipaddress", NBObject.ipaddress ⟨"10.0.0.5", 24, "Active"⟩)] ∧
    bucketOf (ipAddressDelete ⟨"10.0.0.5", 24, "aa:bb:cc:dd:ee:ff", "Active"⟩
      exampleStore []).otd "ipaddress" = [] ∧
    ("_ipaddress" : String) ≠ "ipaddress" :=
  ⟨rfl, rfl, by decide⟩

/-- C1 (amended: the bucket key is an underscore followed by the lowercased
class name): every entity kind's delete leaves the target store unchanged
and files the matched store object into the per-kind `objects_to_delete`
bucket via the shared `ordered_delete`, and the orchestrator's flush issues
every IPAddress delete before every VMInterface delete before every
VirtualMachine delete, whatever the registration order was. -/
theorem deletes_defer_and_flush_orders_ip_iface_vm :
    (∀ (node : DSClusterGroup) (st : Store) (otd : ObjectsToDelete) (rec : ClusterGroupRec),
      dget st.clustergroups (fun x => x.name == node.name) "ClusterGroup" = .ok rec →
      clusterGroupDelete node st otd =
        { store := st, otd := otd ++ [("_clustergroup", .clustergroup rec)],
          returnedSelf := true }) ∧
    (∀ (node : DSCluster) (st : Store) (otd : ObjectsToDelete) (rec : ClusterRec),
      dget st.clusters (fun x => x.name == node.name) "Cluster" = .ok rec →
      clusterDelete node st otd =
        { store := st, otd := otd ++ [("_cluster", .cluster rec)], returnedSelf := true }) ∧
    (∀ (node : DSVMInterface) (st : Store) (otd : ObjectsToDelete) (mac : String)
        (vm : VMRec) (rec : VMInterfaceRec),
      node.mac_address = some mac →
      dget st.vms (fun x => x.name == node.virtual_machine) "VirtualMachine" = .ok vm →
      (if is_valid_mac mac then
        dget st.vminterfaces (fun x => x.name == node.name &&
          x.virtual_machine == vm.name && x.mac_address == some mac) "VMInterface"
      else
        dget st.vminterfaces (fun x => x.name == node.name &&
          x.virtual_machine == vm.name) "VMInterface") = .ok rec →
      vmInterfaceDelete node st otd =
        { store := st, otd := otd ++ [("_vminterface", .vminterface rec)],
          returnedSelf := true }) ∧
    (∀ (node : DSIpAddress) (st : Store) (otd : ObjectsToDelete) (rec : IPRec),
      dget st.ipaddresses (fun x => x.host == node.ip_address &&
        x.prefix_length == node.prefix_length) "IPAddress" = .ok rec →
      ipAddressDelete node st otd =
        { store := st, otd := otd ++ [("_ipaddress", .ipaddress rec)],
          returnedSelf := true }) ∧
    (∀ (node : DSVirtualMachine) (st : Store) (otd : ObjectsToDelete) (rec : VMRec),
      dget st.vms (fun x => x.name == node.name) "VirtualMachine" = .ok rec →
      virtualMachineDelete node st otd =
        { store := st, otd := otd ++ [("_virtualmachine", .virtualmachine rec)],
          returnedSelf := true }) ∧
    (∀ (node : DSHost) (st : Store) (otd : ObjectsToDelete) (rec : DeviceRec),
      dget st.devices (fun x => x.name == node.name) "Device" = .ok rec →
      hostDelete node st otd =
        { store := st, otd := otd ++ [("_device", .device rec)], returnedSelf := true }) ∧
    (∀ (otd : ObjectsToDelete), (∀ p ∈ otd, p.1 = bucketKeyOf p.2) →
      ∀ (i j : Nat) (hi : i < (flushSequence otd).length)
        (hj : j < (flushSequence otd).length),
        (((flushSequence otd).get ⟨i, hi⟩).isIpAddress = true →
          ((flushSequence otd).get ⟨j, hj⟩).isVMInterface = true → i < j) ∧
        (((flushSequence otd).get ⟨i, hi⟩).isVMInterface = true →
          ((flushSequence otd).get ⟨j, hj⟩).isVirtualMachine = true → i < j)) := by
  refine ⟨?_, ?_, ?_, ?_, ?_, ?_, ?_⟩
  · intro node st otd rec h
    unfold clusterGroupDelete
    rw [h]
    exact rfl
  · intro node st otd rec h
    unfold clusterDelete
    rw [h]
    exact rfl
  · intro node st otd mac vm rec hm hvm hif
    unfold vmInterfaceDelete
    rw [hm, hvm]
    simp only
    rw [hif]
    exact rfl
  · intro node st otd rec h
    unfold ipAddressDelete
    simp only
    rw [h]
    exact rfl
  · intro node st otd rec h
    unfold virtualMachineDelete
    rw [h]
    exact rfl
  · intro node st otd rec h
    unfold hostDelete
    rw [h]
    exact rfl
  · intro otd hw i j hi hj
    exact ⟨fun h1 h2 => flush_ip_before_iface otd hw i j hi hj h1 h2,
      fun h1 h2 => flush_iface_before_vm otd hw i j hi hj h1 h2⟩

/-- Witness for the C1 theorem at concrete inputs: each delete applied to
the example store, and the flush order of a bucket list registered in the
order VirtualMachine, VMInterface, IPAddress. -/
theorem deletes_defer_and_flush_orders_witness :
    (clusterGroupDelete ⟨"cg1"⟩ exampleStore [] =
      { store := exampleStore,
        otd := [("_clustergroup", .clustergroup ⟨"cg1", "cg1"⟩)], returnedSelf := true }) ∧
    (clusterDelete ⟨"c1"⟩ exampleStore [] =
      { store := exampleStore,
        otd := [("_cluster", .cluster ⟨"c1", "vSphere", none⟩)], returnedSelf := true }) ∧
    (vmInterfaceDelete ⟨"eth0", "vm1", true, some "aa:bb:cc:dd:ee:ff"⟩ exampleStore [] =
      { store := exampleStore,
        otd := [("_vminterface", .vminterface
          ⟨"eth0", "vm1", true, some "aa:bb:cc:dd:ee:ff", [("10.0.0.5", 24)]⟩)],
        returnedSelf := true }) ∧
    (ipAddressDelete ⟨"10.0.0.5", 24, "aa:bb:cc:dd:ee:ff", "Active"⟩ exampleStore [] =
      { store := exampleStore,
        otd := [("_ipaddress", .ipaddress ⟨"10.0.0.5", 24, "Active"⟩)],
        returnedSelf := true }) ∧
    (virtualMachineDelete ⟨"vm1"⟩ exampleStore [] =
      { store := exampleStore,
        otd := [("_virtualmachine", .virtualmachine
          ⟨"vm1", "Active", "c1", none, none, none, none, none⟩)],
        returnedSelf := true }) ∧
    (hostDelete ⟨"esx1"⟩ exampleStore [] =
      { store := exampleStore,
        otd := [("_device", .device ⟨"esx1", "Active", "Host", "ESXi", "c1", "gtn"⟩)],
        returnedSelf := true }) ∧
    (0 : Nat) < 1 ∧ (1 : Nat) < 2 := by
  have h := deletes_defer_and_flush_orders_ip_iface_vm
  obtain ⟨h1, h2, h3, h4, h5, h6, h7⟩ := h
  refine ⟨h1 ⟨"cg1"⟩ exampleStore [] _ rfl,
    h2 ⟨"c1"⟩ exampleStore [] _ rfl,
    h3 ⟨"eth0", "vm1", true, some "aa:bb:cc:dd:ee:ff"⟩ exampleStore []
      "aa:bb:cc:dd:ee:ff" ⟨"vm1", "Active", "c1", none, none, none, none, none⟩ _
      rfl rfl rfl,
    h4 ⟨"10.0.0.5", 24, "aa:bb:cc:dd:ee:ff", "Active"⟩ exampleStore [] _ rfl,
    h5 ⟨"vm1"⟩ exampleStore [] _ rfl,
    h6 ⟨"esx1"⟩ exampleStore [] _ rfl, ?_, ?_⟩
  · exact (h7 [("_virtualmachine", .virtualmachine ⟨"vm1", "Active", "c1", none, none, none, none, none⟩),
      ("_vminterface", .vminterface ⟨"eth0", "vm1", true, some "aa:bb:cc:dd:ee:ff", [("10.0.0.5", 24)]⟩),
      ("_ipaddress", .ipaddress ⟨"10.0.0.5", 24, "Active"⟩)]
      (by decide) 0 1 (by decide) (by decide)).1 (by decide) (by decide)
  · exact (h7 [("_virtualmachine", .virtualmachine ⟨"vm1", "Active", "c1", none, none, none, none, none⟩),
      ("_vminterface", .vminterface ⟨"eth0", "vm1", true, some "aa:bb:cc:dd:ee:ff", [("10.0.0.5", 24)]⟩),
      ("_ipaddress", .ipaddress ⟨"10.0.0.5", 24, "Active"⟩)]
      (by decide) 1 2 (by decide) (by decide)).2 (by decide) (by decide)

/-! ## Conditional schema (C7) -/

/-- C7: the presence of `cluster` in the comparable attribute tuple of
VirtualMachine and of Host is decided once per deployment by
`DEFAULT_USE_CLUSTERS`: with the flag false the tuple excludes `cluster`,
with it true the tuple includes it. -/
theorem cluster_attribute_iff_use_clusters (cfg : Config) :
    ("cluster" ∈ DiffSyncVirtualMachine_attributes cfg ↔
      cfg.default_use_clusters = true) ∧
    ("cluster" ∈ DiffSyncHost_attributes cfg ↔ cfg.default_use_clusters = true) := by
  cases h : cfg.default_use_clusters <;>
    simp [DiffSyncVirtualMachine_attributes, DiffSyncHost_attributes, h]

/-! ## NotFound handling at delete/update time (C3) -/

/-- C3 fails on the code: `DiffSyncHost.delete` queries the Device table
but its handler catches `VirtualMachine.DoesNotExist`, so when the Device
is absent, `Device.DoesNotExist` escapes the delete un-logged and nothing
is registered — the amended behavior, proved here as the evaluation of the
delete at any store without the device. -/
theorem host_delete_notfound_escapes (node : DSHost) (st : Store)
    (otd : ObjectsToDelete)
    (h : st.devices.filter (fun x => x.name == node.name) = []) :
    hostDelete node st otd =
      { exc := some (.doesNotExist "Device"), store := st, otd := otd } := by
  unfold hostDelete dget
  rw [h]
  exact rfl

/-- Witness: the Host delete on a store with no devices raises
`Device.DoesNotExist` with no log line. -/
theorem host_delete_notfound_escapes_witness :
    hostDelete ⟨"esx9"⟩ exampleStore [] =
      { exc := some (.doesNotExist "Device"), store := exampleStore, otd := [] } :=
  host_delete_notfound_escapes ⟨"esx9"⟩ exampleStore [] rfl

/-! ## Uniqueness-conflict handling at create time (C4) -/

/-- C4 fails on the code: when `VMInterface.objects.get_or_create` raises
`IntegrityError` — the owning VM exists, no row matches the full
(name, enabled, vm, mac) filter, but a row collides on the (vm, name)
uniqueness — the `except IntegrityError` handler evaluates
`obj=vm_interface` with that local never assigned, and Python raises
`UnboundLocalError` out of the handler: nothing is logged and the batch
aborts.  The theorem evaluates the create on any such store. -/
theorem vminterface_create_conflict_handler_raises
    (ids : VMInterfaceIds) (attrs : VMInterfaceCreateAttrs) (st : Store) (vm : VMRec)
    (hvm : dget st.vms (fun x => x.name == ids.virtual_machine) "VirtualMachine" = .ok vm)
    (hnomatch : st.vminterfaces.filter (fun x =>
      x.name == ids.name && x.enabled == attrs.enabled &&
        x.virtual_machine == vm.name && x.mac_address == attrs.mac_address) = [])
    (hconflict : st.vminterfaces.any (fun x =>
      x.virtual_machine == vm.name && x.name == ids.name) = true) :
    vmInterfaceCreate ids attrs st =
      { exc := some .unboundLocalError, store := st } := by
  unfold vmInterfaceCreate
  rw [hvm]
  simp only
  unfold getOrCreate
  rw [hnomatch, hconflict]
  exact rfl

/-- Witness: creating the interface (eth0, vm1) with `enabled=False`
against the example store — where (eth0, vm1) exists with `enabled=True`,
so the full filter misses but the (vm, name) uniqueness collides — ends in
`UnboundLocalError` with an empty log. -/
theorem vminterface_create_conflict_handler_raises_witness :
    vmInterfaceCreate ⟨"eth0", "vm1"⟩ ⟨false, some "aa:bb:cc:dd:ee:ff"⟩ exampleStore =
      { exc := some .unboundLocalError, store := exampleStore } :=
  vminterface_create_conflict_handler_raises ⟨"eth0", "vm1"⟩
    ⟨false, some "aa:bb:cc:dd:ee:ff"⟩ exampleStore
    ⟨"vm1", "Active", "c1", none, none, none, none, none⟩ rfl rfl rfl

/-! ## Missing-dependency tolerance at create time (C2) -/

/-- C2 as frozen is false at this input: a VirtualMachine create whose
named cluster is absent raises `Cluster.DoesNotExist` out of `create` —
nothing is logged, the node is not registered, so the batch aborts instead
of continuing. -/
theorem vm_create_missing_cluster_aborts_unlogged :
    virtualMachineCreate ⟨true, true, "vSphere", "DefaultCluster"⟩ ⟨"vm2"⟩
      ⟨some "Active", some 2, some 4096, some 50, some "nope", none, none⟩
      exampleStore =
      { exc := some (.doesNotExist "Cluster"), store := exampleStore } := rfl

/-- C2 (amended): only the Host create's site lookup implements the
described tolerance — a missing site is logged, the store-level write is
skipped and the node is still registered.  Other missing cross-references
(here: a VirtualMachine create's named cluster, a VMInterface create's
owning VirtualMachine) raise the lookup's `DoesNotExist` out of `create`,
un-logged and without registering the node. -/
theorem missing_dependency_tolerated_only_for_host_site :
    (∀ (ids : HostIds) (attrs : HostCreateAttrs) (st : Store) (cl : String)
        (status : StatusRec) (dt : DeviceTypeRec) (dr : DeviceRoleRec) (c : ClusterRec),
      dget st.statuses (fun x => x.name == "Active") "Status" = .ok status →
      dget st.devicetypes (fun x => x.model == attrs.device_type) "DeviceType" = .ok dt →
      dget st.deviceroles (fun x => x.name == attrs.device_role) "DeviceRole" = .ok dr →
      attrs.cluster = some cl →
      dget st.clusters (fun x => x.name == cl) "Cluster" = .ok c →
      dget st.sites (fun x => x.slug == attrs.site) "Site" = .error (.doesNotExist "Site") →
      hostCreate ids attrs st =
        { store := st, logs := ["No site found for " ++ attrs.site ++ "."],
          registered := true }) ∧
    (∀ (cfg : Config) (ids : VirtualMachineIds) (attrs : VirtualMachineCreateAttrs)
        (st : Store) (status : StatusRec),
      cfg.default_use_clusters = true →
      dget st.statuses (fun x => some x.name == attrs.status) "Status" = .ok status →
      dget st.clusters (fun x => some x.name == attrs.cluster) "Cluster" =
        .error (.doesNotExist "Cluster") →
      virtualMachineCreate cfg ids attrs st =
        { exc := some (.doesNotExist "Cluster"), store := st }) ∧
    (∀ (ids : VMInterfaceIds) (attrs : VMInterfaceCreateAttrs) (st : Store),
      dget st.vms (fun x => x.name == ids.virtual_machine) "VirtualMachine" =
        .error (.doesNotExist "VirtualMachine") →
      vmInterfaceCreate ids attrs st =
        { exc := some (.doesNotExist "VirtualMachine"), store := st }) := by
  refine ⟨?_, ?_, ?_⟩
  · intro ids attrs st cl status dt dr c hst hdt hdr hcl hc hsite
    simp only [hostCreate, hst, hdt, hdr, hcl, hc, hsite]
  · intro cfg ids attrs st status hcfg hst hcl
    simp only [virtualMachineCreate, hcfg, hst, hcl, if_true]
    exact rfl
  · intro ids attrs st hvm
    simp only [vmInterfaceCreate, hvm]

/-- Witness for the C2 theorem: against the example store (extended with a
device type and role), a Host create naming an absent site logs and
registers with the store untouched, while a VirtualMachine create naming
an absent cluster and a VMInterface create naming an absent owning VM
abort un-logged. -/
theorem missing_dependency_tolerated_only_for_host_site_witness :
    (hostCreate ⟨"h1"⟩ ⟨"Host", "ESXi", "nosite", some "c1"⟩ exampleStore =
      { store := exampleStore, logs := ["No site found for nosite."],
        registered := true }) ∧
    (virtualMachineCreate ⟨true, true, "vSphere", "DefaultCluster"⟩ ⟨"vm3"⟩
      ⟨some "Suspended", none, none, none, some "c9", none, none⟩ exampleStore =
      { exc := some (.doesNotExist "Cluster"), store := exampleStore }) ∧
    (vmInterfaceCreate ⟨"eth9", "vmX"⟩ ⟨true, none⟩ exampleStore =
      { exc := some (.doesNotExist "VirtualMachine"), store := exampleStore }) := by
  obtain ⟨h1, h2, h3⟩ := missing_dependency_tolerated_only_for_host_site
  exact ⟨h1 ⟨"h1"⟩ ⟨"Host", "ESXi", "nosite", some "c1"⟩ exampleStore "c1" ⟨"Active"⟩
      ⟨"ESXi"⟩ ⟨"Host"⟩ ⟨"c1", "vSphere", none⟩ rfl rfl rfl rfl rfl rfl,
    h2 ⟨true, true, "vSphere", "DefaultCluster"⟩ ⟨"vm3"⟩
      ⟨some "Suspended", none, none, none, some "c9", none, none⟩ exampleStore
      ⟨"Suspended"⟩ rfl rfl rfl,
    h3 ⟨"eth9", "vmX"⟩ ⟨true, none⟩ exampleStore rfl⟩

/-! ## Update semantics (C6) -/

/-- Persisting a snapshot equal to every row its key matches leaves the
table unchanged. -/
theorem saveRec_id {α : Type} (l : List α) (p : α → Bool) (r : α)
    (h : ∀ x ∈ l, p x = true → x = r) : saveRec l p r = l := by
  unfold saveRec
  induction l with
  | nil => rfl
  | cons a t ih =>
    simp only [List.map_cons, List.cons.injEq]
    constructor
    · by_cases hp : p a = true
      · rw [if_pos hp, h a (by simp) hp]
      · rw [if_neg hp]
    · exact ih (fun x hx hpx => h x (by simp [hx]) hpx)

/-- A successful Django `get` pins the filter down to the one row. -/
theorem dget_ok_filter {α : Type} {l : List α} {p : α → Bool} {m : String} {r : α}
    (h : dget l p m = .ok r) : l.filter p = [r] := by
  unfold dget at h
  rcases hf : l.filter p with _ | ⟨x, t⟩
  · rw [hf] at h; exact absurd h (by simp)
  · rcases t with _ | ⟨y, t2⟩
    · rw [hf] at h
      simp only [Except.ok.injEq] at h
      rw [h]
    · rw [hf] at h; exact absurd h (by simp)

/-- C6 as frozen is false at this input: a VMInterface update whose diff
carries enabled=False returns normally yet writes nothing — the falsy
value fails the `if attrs.get("enabled")` truthiness test, so the stored
interface keeps enabled=True. -/
theorem vminterface_update_skips_falsy_enabled :
    vmInterfaceUpdate ⟨"eth0", "vm1", true, some "aa:bb:cc:dd:ee:ff"⟩
      ⟨some false, none⟩ exampleStore =
      { store := exampleStore, registered := true } ∧
    exampleStore.vminterfaces.map (fun x => x.enabled) = [true] := ⟨rfl, rfl⟩

/-- C6 (amended): an update applies exactly the truthy-valued attributes
of the diff — a falsy value (False, None, "") present in the diff is
skipped, and fields absent from the diff stay untouched — and
`DiffSyncIpAddress.update` applies no attribute at all (it tests the key
"status", which a diff over its declared attributes never contains), so
the store is returned unchanged. -/
theorem update_applies_truthy_attrs_only :
    (∀ (node : DSVMInterface) (attrs : VMInterfaceUpdateAttrs) (st : Store)
        (vm : VMRec) (iface : VMInterfaceRec),
      dget st.vms (fun x => x.name == node.virtual_machine) "VirtualMachine" = .ok vm →
      dget st.vminterfaces (fun x => x.name == node.name && x.virtual_machine == vm.name)
        "VMInterface" = .ok iface →
      vmInterfaceUpdate node attrs st =
        { store := tagObject st (.vminterface
            { iface with
              enabled := if attrs.enabled == some true then true else iface.enabled,
              mac_address := if truthyS attrs.mac_address then attrs.mac_address
                else iface.mac_address }),
          registered := true }) ∧
    (∀ (node : DSIpAddress) (attrs : PyDict) (st : Store) (ip : IPRec),
      (∀ p ∈ attrs, p.1 = "state" ∨ p.1 = "vm_interface_name" ∨ p.1 = "vm_name") →
      dget st.ipaddresses (fun x => x.host == node.ip_address &&
        x.prefix_length == node.prefix_length) "IPAddress" = .ok ip →
      ipAddressUpdate node attrs st = { store := st, registered := true }) := by
  constructor
  · intro node attrs st vm iface hvm hif
    obtain ⟨oe, om⟩ := attrs
    simp only [vmInterfaceUpdate, hvm, hif]
    cases oe with
    | none =>
      cases om with
      | none => exact rfl
      | some m => cases hmn : m != "" <;> simp [hmn, truthyS]
    | some b =>
      cases b with
      | false =>
        cases om with
        | none => exact rfl
        | some m => cases hmn : m != "" <;> simp [hmn, truthyS]
      | true =>
        cases om with
        | none => exact rfl
        | some m => cases hmn : m != "" <;> simp [hmn, truthyS]
  · intro node attrs st ip hkeys hip
    have hpg : pyGet attrs "status" = .pynone := by
      unfold pyGet
      rcases hf : attrs.find? (fun p => p.1 == "status") with _ | ⟨p⟩
      · rw [hf]
      · have hpt := List.find?_some hf
        have hmem := List.mem_of_find?_eq_some hf
        rcases hkeys p hmem with h | h | h <;> rw [h] at hpt <;> exact absurd hpt (by decide)
    have hfilter := dget_ok_filter hip
    have hmem : ip ∈ st.ipaddresses.filter (fun x => x.host == node.ip_address &&
        x.prefix_length == node.prefix_length) := by rw [hfilter]; exact List.mem_singleton.mpr rfl
    have hprop := (List.mem_filter.mp hmem).2
    simp only [Bool.and_eq_true, beq_iff_eq] at hprop
    have hid : ∀ x ∈ st.ipaddresses,
        (x.host == ip.host && x.prefix_length == ip.prefix_length) = true → x = ip := by
      intro x hx hpk
      simp only [Bool.and_eq_true, beq_iff_eq] at hpk
      have hx2 : x ∈ st.ipaddresses.filter (fun y => y.host == node.ip_address &&
          y.prefix_length == node.prefix_length) := by
        refine List.mem_filter.mpr ⟨hx, ?_⟩
        simp only [Bool.and_eq_true, beq_iff_eq]
        exact ⟨hpk.1.trans hprop.1, hpk.2.trans hprop.2⟩
      rw [hfilter] at hx2
      exact List.mem_singleton.mp hx2
    simp only [ipAddressUpdate, hip, hpg]
    have : tagObject st (.ipaddress ip) = st := by
      show { st with ipaddresses := saveRec st.ipaddresses _ ip } = st
      rw [saveRec_id st.ipaddresses _ ip hid]
    rw [this]
    exact rfl

/-- Witness for the C6 theorem: a VMInterface update carrying a truthy mac
and a falsy enabled applies only the mac, and an IPAddress update whose
diff carries a new state writes nothing. -/
theorem update_applies_truthy_attrs_only_witness :
    (vmInterfaceUpdate ⟨"eth0", "vm1", true, some "aa:bb:cc:dd:ee:ff"⟩
      ⟨some false, some "11:22:33:44:55:66"⟩ exampleStore =
      { store := tagObject exampleStore (.vminterface
          ⟨"eth0", "vm1", true, some "11:22:33:44:55:66", [("10.0.0.5", 24)]⟩),
        registered := true }) ∧
    (ipAddressUpdate ⟨"10.0.0.5", 24, "aa:bb:cc:dd:ee:ff", "Active"⟩
      [("state", .str "Reserved")] exampleStore =
      { store := exampleStore, registered := true }) := by
  obtain ⟨h1, h2⟩ := update_applies_truthy_attrs_only
  exact ⟨h1 ⟨"eth0", "vm1", true, some "aa:bb:cc:dd:ee:ff"⟩
      ⟨some false, some "11:22:33:44:55:66"⟩ exampleStore
      ⟨"vm1", "Active", "c1", none, none, none, none, none⟩
      ⟨"eth0", "vm1", true, some "aa:bb:cc:dd:ee:ff", [("10.0.0.5", 24)]⟩ rfl rfl,
    h2 ⟨"10.0.0.5", 24, "aa:bb:cc:dd:ee:ff", "Active"⟩ [("state", .str "Reserved")]
      exampleStore ⟨"10.0.0.5", 24, "Active"⟩
      (by intro p hp; simp at hp; subst hp; left; rfl) rfl⟩

/-! ## Primary-IP update (C8) -/

/-- `setattr` of a primary pointer does not touch the VM's name. -/
theorem setPrimary_name (vm : VMRec) (v : Nat) (k : IPKey) :
    (setPrimary vm v k).name = vm.name := by
  unfold setPrimary
  by_cases h4 : (v == 4) = true
  · rw [if_pos h4]
  · rw [if_neg h4]
    by_cases h6 : (v == 6) = true
    · rw [if_pos h6]
    · rw [if_neg h6]

/-- One pure loop iteration does not touch the VM's name. -/
theorem primaryStep_name (attrs : VirtualMachineUpdateAttrs) (vm : VMRec) (ip : IPRec) :
    (primaryStep attrs vm ip).name = vm.name := by
  unfold primaryStep
  by_cases h : (primaryOf attrs (ipVersion ip.host) == some ip.host) = true
  · rw [if_pos h]
    exact setPrimary_name vm _ _
  · rw [if_neg h]

/-- The whole pure loop does not touch the VM's name. -/
theorem foldl_primaryStep_name (attrs : VirtualMachineUpdateAttrs) :
    ∀ (pairs : List IPRec) (vm : VMRec),
      (pairs.foldl (primaryStep attrs) vm).name = vm.name := by
  intro pairs
  induction pairs with
  | nil => intro vm; rfl
  | cons ip rest ih =>
    intro vm
    rw [List.foldl_cons, ih, primaryStep_name]

/-- A singleton filter pins every matching member down to that element. -/
theorem filter_singleton_unique {α : Type} {l : List α} {p : α → Bool} {x : α}
    (h : l.filter p = [x]) : ∀ y ∈ l, p y = true → y = x := by
  intro y hy hp
  have hmem : y ∈ l.filter p := List.mem_filter.mpr ⟨hy, hp⟩
  rw [h] at hmem
  exact List.mem_singleton.mp hmem

/-- The element of a singleton filter satisfies the filter and is a
member. -/
theorem mem_filter_self {α : Type} {l : List α} {p : α → Bool} {x : α}
    (h : l.filter p = [x]) : p x = true ∧ x ∈ l := by
  have hmem : x ∈ l.filter p := by rw [h]; exact List.mem_singleton.mpr rfl
  exact ⟨(List.mem_filter.mp hmem).2, (List.mem_filter.mp hmem).1⟩

/-- A singleton filter determines `find?`. -/
theorem find?_of_filter_singleton {α : Type} {l : List α} {p : α → Bool} {x : α}
    (h : l.filter p = [x]) : l.find? p = some x := by
  induction l with
  | nil => simp at h
  | cons a t ih =>
    by_cases hp : p a = true
    · rw [List.filter_cons_of_pos hp] at h
      simp only [List.cons.injEq] at h
      rw [List.find?_cons_of_pos _ hp, h.1]
    · rw [List.filter_cons_of_neg (by simp [hp])] at h
      rw [List.find?_cons_of_neg _ (by simp [hp])]
      exact ih h

/-- Saving over the one matching row keeps the filter a singleton, now of
the snapshot. -/
theorem saveRec_filter {α : Type} {l : List α} {p : α → Bool} {x : α} (r : α)
    (h : l.filter p = [x]) (hr : p r = true) :
    (saveRec l p r).filter p = [r] := by
  induction l with
  | nil => simp at h
  | cons a t ih =>
    by_cases hp : p a = true
    · rw [List.filter_cons_of_pos hp] at h
      simp only [List.cons.injEq] at h
      obtain ⟨rfl, ht⟩ := h
      show ((if p a then r else a) :: saveRec t p r).filter p = [r]
      rw [if_pos hp]
      rw [saveRec_id t p r (fun y hy hpy =>
        absurd hpy (by simp [List.filter_eq_nil_iff.mp ht y hy]))]
      rw [List.filter_cons_of_pos hr, ht]
    · rw [List.filter_cons_of_neg (by simp [hp])] at h
      show ((if p a then r else a) :: saveRec t p r).filter p = [r]
      rw [if_neg hp, List.filter_cons_of_neg (by simp [hp])]
      exact ih h

/-- Two saves through the same key collapse to the last one, provided the
first snapshot still matches the key. -/
theorem saveRec_saveRec {α : Type} (l : List α) (p : α → Bool) (r1 r2 : α)
    (h : p r1 = true) : saveRec (saveRec l p r1) p r2 = saveRec l p r2 := by
  induction l with
  | nil => rfl
  | cons a t ih =>
    show ((if p (if p a then r1 else a) then r2 else (if p a then r1 else a)) ::
        saveRec (saveRec t p r1) p r2) = (if p a then r2 else a) :: saveRec t p r2
    rw [ih]
    by_cases hp : p a = true
    · rw [if_pos hp, if_pos h, if_pos hp]
    · simp only [if_neg hp]

/-- `interface.ip_addresses.all()` reads only the IPAddress table. -/
theorem ipsOf_congr {s1 s2 : Store} (h : s1.ipaddresses = s2.ipaddresses) :
    ipsOf s1 = ipsOf s2 := by
  funext iface
  unfold ipsOf
  rw [h]

/-- Collapse of the stateful inner loop (parent caching, per-match saves,
interface re-save) over one interface's IP rows to the pure fold on the
unique VM row. -/
theorem primaryInner_collapse (attrs : VirtualMachineUpdateAttrs) (vmName : String)
    (iface : VMInterfaceRec) :
    ∀ (ips : List IPRec) (s : Store) (c : Option VMRec) (vm : VMRec),
      s.vms.filter (fun x => x.name == vmName) = [vm] →
      (c = none ∨ c = some vm) →
      (ips.foldl (primaryInnerStep attrs vmName iface) (s, c)).1.vms =
          saveRec s.vms (fun x => x.name == vmName)
            (ips.foldl (primaryStep attrs) vm) ∧
      (ips.foldl (primaryInnerStep attrs vmName iface) (s, c)).1.ipaddresses =
          s.ipaddresses ∧
      (ips.foldl (primaryInnerStep attrs vmName iface) (s, c)).1.vms.filter
          (fun x => x.name == vmName) = [ips.foldl (primaryStep attrs) vm] ∧
      ((ips.foldl (primaryInnerStep attrs vmName iface) (s, c)).2 = none ∨
       (ips.foldl (primaryInnerStep attrs vmName iface) (s, c)).2 =
          some (ips.foldl (primaryStep attrs) vm)) := by
  intro ips
  induction ips with
  | nil =>
    intro s c vm hf hc
    refine ⟨?_, rfl, hf, hc⟩
    exact (saveRec_id s.vms _ vm (filter_singleton_unique hf)).symm
  | cons ip rest ih =>
    intro s c vm hf hc
    simp only [List.foldl_cons]
    have hpvm : (vm.name == vmName) = true := (mem_filter_self hf).1
    by_cases hcond : (primaryOf attrs (ipVersion ip.host) == some ip.host) = true
    · have hstep : primaryStep attrs vm ip =
          setPrimary vm (ipVersion ip.host) (ip.host, ip.prefix_length) := by
        unfold primaryStep
        rw [if_pos hcond]
      have hinner : primaryInnerStep attrs vmName iface (s, c) ip =
          ({ s with
              vms := saveRec s.vms (fun x => x.name == vmName)
                (primaryStep attrs vm ip),
              vminterfaces := saveRec s.vminterfaces
                (fun x => x.name == iface.name &&
                  x.virtual_machine == iface.virtual_machine) iface },
            some (primaryStep attrs vm ip)) := by
        rcases hc with rfl | rfl
        · unfold primaryInnerStep
          rw [if_pos hcond]
          simp only [find?_of_filter_singleton hf, Option.getD_some, hstep]
        · unfold primaryInnerStep
          rw [if_pos hcond]
          simp only [hstep]
      rw [hinner]
      have hname : ((primaryStep attrs vm ip).name == vmName) = true := by
        rw [primaryStep_name]
        exact hpvm
      have hf1 : (saveRec s.vms (fun x => x.name == vmName)
          (primaryStep attrs vm ip)).filter (fun x => x.name == vmName) =
          [primaryStep attrs vm ip] := saveRec_filter _ hf hname
      obtain ⟨ih1, ih2, ih3, ih4⟩ := ih
        ({ s with
            vms := saveRec s.vms (fun x => x.name == vmName) (primaryStep attrs vm ip),
            vminterfaces := saveRec s.vminterfaces
              (fun x => x.name == iface.name &&
                x.virtual_machine == iface.virtual_machine) iface })
        (some (primaryStep attrs vm ip)) (primaryStep attrs vm ip) hf1 (Or.inr rfl)
      refine ⟨?_, ih2, ih3, ih4⟩
      rw [ih1]
      exact saveRec_saveRec _ _ _ _ hname
    · have hinner : primaryInnerStep attrs vmName iface (s, c) ip = (s, c) := by
        unfold primaryInnerStep
        rw [if_neg hcond]
      have hstep : primaryStep attrs vm ip = vm := by
        unfold primaryStep
        rw [if_neg hcond]
      rw [hinner, hstep]
      exact ih s c vm hf hc

/-- Collapse of the whole interface loop to the pure fold over the
flattened interface/IP pair list. -/
theorem primaryLoop_collapse_aux (attrs : VirtualMachineUpdateAttrs) (vmName : String) :
    ∀ (ifaces : List VMInterfaceRec) (s : Store) (vm : VMRec),
      s.vms.filter (fun x => x.name == vmName) = [vm] →
      (ifaces.foldl (primaryLoopIface attrs vmName) s).vms =
        saveRec s.vms (fun x => x.name == vmName)
          (((ifaces.map (ipsOf s)).flatten).foldl (primaryStep attrs) vm) ∧
      (ifaces.foldl (primaryLoopIface attrs vmName) s).ipaddresses = s.ipaddresses ∧
      (ifaces.foldl (primaryLoopIface attrs vmName) s).vms.filter
          (fun x => x.name == vmName) =
        [((ifaces.map (ipsOf s)).flatten).foldl (primaryStep attrs) vm] := by
  intro ifaces
  induction ifaces with
  | nil =>
    intro s vm hf
    exact ⟨(saveRec_id s.vms _ vm (filter_singleton_unique hf)).symm, rfl, hf⟩
  | cons iface rest ih =>
    intro s vm hf
    simp only [List.foldl_cons, List.map_cons, List.flatten_cons, List.foldl_append]
    have hpvm : (vm.name == vmName) = true := (mem_filter_self hf).1
    have hinner := primaryInner_collapse attrs vmName iface (ipsOf s iface)
      s none vm hf (Or.inl rfl)
    have h1 : (primaryLoopIface attrs vmName s iface).vms =
        saveRec s.vms (fun x => x.name == vmName)
          ((ipsOf s iface).foldl (primaryStep attrs) vm) := hinner.1
    have h2 : (primaryLoopIface attrs vmName s iface).ipaddresses = s.ipaddresses :=
      hinner.2.1
    have h3 : (primaryLoopIface attrs vmName s iface).vms.filter
        (fun x => x.name == vmName) = [(ipsOf s iface).foldl (primaryStep attrs) vm] :=
      hinner.2.2.1
    obtain ⟨g1, g2, g3⟩ := ih (primaryLoopIface attrs vmName s iface)
      ((ipsOf s iface).foldl (primaryStep attrs) vm) h3
    have hips : ipsOf (primaryLoopIface attrs vmName s iface) = ipsOf s :=
      ipsOf_congr h2
    have hname : (((ipsOf s iface).foldl (primaryStep attrs) vm).name == vmName) = true := by
      rw [foldl_primaryStep_name]
      exact hpvm
    refine ⟨?_, ?_, ?_⟩
    · rw [g1, hips, h1]
      exact saveRec_saveRec _ _ _ _ hname
    · rw [g2, h2]
    · rw [g3, hips]

/-- The loop in `DiffSyncVirtualMachine.update` equals the pure last-write
fold over every interface/IP pair of the VM, applied to its unique row. -/
theorem primaryLoop_collapse (attrs : VirtualMachineUpdateAttrs) (vmName : String)
    (st : Store) (vm : VMRec)
    (h : st.vms.filter (fun x => x.name == vmName) = [vm]) :
    (primaryLoop attrs vmName st).vms =
      saveRec st.vms (fun x => x.name == vmName)
        ((vmPairs st vmName).foldl (primaryStep attrs) vm) :=
  (primaryLoop_collapse_aux attrs vmName
    (st.vminterfaces.filter (fun x => x.virtual_machine == vmName)) st vm h).1

/-- Folding the last-match accumulator from any start is the fold from
`none`, with the start as fallback. -/
theorem foldl_lastStep_init (attrs : VirtualMachineUpdateAttrs) (v : Nat) :
    ∀ (pairs : List IPRec) (a : Option IPKey),
      pairs.foldl (lastStep attrs v) a =
        (match pairs.foldl (lastStep attrs v) none with
         | some k => some k
         | none => a) := by
  intro pairs
  induction pairs with
  | nil => intro a; rfl
  | cons ip rest ih =>
    intro a
    simp only [List.foldl_cons]
    by_cases hc : (ipVersion ip.host == v && (primaryOf attrs v == some ip.host)) = true
    · rw [show lastStep attrs v a ip = some (ip.host, ip.prefix_length) from by
          unfold lastStep; rw [if_pos hc],
        show lastStep attrs v none ip = some (ip.host, ip.prefix_length) from by
          unfold lastStep; rw [if_pos hc]]
      rw [ih (some (ip.host, ip.prefix_length))]
      cases rest.foldl (lastStep attrs v) none <;> rfl
    · rw [show lastStep attrs v a ip = a from by unfold lastStep; rw [if_neg hc],
        show lastStep attrs v none ip = none from by unfold lastStep; rw [if_neg hc]]
      exact ih a

/-- The pure loop's final v4 pointer: the last matching pair, else the
starting value. -/
theorem foldl_primaryStep_ip4 (attrs : VirtualMachineUpdateAttrs) :
    ∀ (pairs : List IPRec) (vm : VMRec),
      (pairs.foldl (primaryStep attrs) vm).primary_ip4 =
        (match lastPrimaryMatch pairs attrs 4 with
         | some k => some k
         | none => vm.primary_ip4) := by
  intro pairs
  induction pairs with
  | nil => intro vm; rfl
  | cons ip rest ih =>
    intro vm
    simp only [List.foldl_cons, lastPrimaryMatch] at ih ⊢
    rw [ih (primaryStep attrs vm ip)]
    rw [foldl_lastStep_init attrs 4 rest (lastStep attrs 4 none ip)]
    cases rest.foldl (lastStep attrs 4) none with
    | some k => rfl
    | none =>
      unfold primaryStep lastStep setPrimary ipVersion primaryOf
      by_cases hcolon : ip.host.toList.contains ':' = true
      · simp only [hcolon, if_true]
        by_cases hm : (attrs.primary_ip6 == some ip.host) = true
        · simp [hm]
        · simp [hm]
      · simp only [hcolon, if_false, Bool.false_eq_true]
        by_cases hm : (attrs.primary_ip4 == some ip.host) = true
        · simp [hm]
        · simp [hm]

/-- The pure loop's final v6 pointer, likewise. -/
theorem foldl_primaryStep_ip6 (attrs : VirtualMachineUpdateAttrs) :
    ∀ (pairs : List IPRec) (vm : VMRec),
      (pairs.foldl (primaryStep attrs) vm).primary_ip6 =
        (match lastPrimaryMatch pairs attrs 6 with
         | some k => some k
         | none => vm.primary_ip6) := by
  intro pairs
  induction pairs with
  | nil => intro vm; rfl
  | cons ip rest ih =>
    intro vm
    simp only [List.foldl_cons, lastPrimaryMatch] at ih ⊢
    rw [ih (primaryStep attrs vm ip)]
    rw [foldl_lastStep_init attrs 6 rest (lastStep attrs 6 none ip)]
    cases rest.foldl (lastStep attrs 6) none with
    | some k => rfl
    | none =>
      unfold primaryStep lastStep setPrimary ipVersion primaryOf
      by_cases hcolon : ip.host.toList.contains ':' = true
      · simp only [hcolon, if_true]
        by_cases hm : (attrs.primary_ip6 == some ip.host) = true
        · simp [hm]
        · simp [hm]
      · simp only [hcolon, if_false, Bool.false_eq_true]
        by_cases hm : (attrs.primary_ip4 == some ip.host) = true
        · simp [hm]
        · simp [hm]

set_option maxHeartbeats 1000000 in
/-- The truthiness-guarded attribute mutations touch neither the name nor
the primary pointers. -/
theorem applyVMAttrs_preserves (cfg : Config) (vm : VMRec)
    (attrs : VirtualMachineUpdateAttrs) :
    (applyVMAttrs cfg vm attrs).name = vm.name ∧
    (applyVMAttrs cfg vm attrs).primary_ip4 = vm.primary_ip4 ∧
    (applyVMAttrs cfg vm attrs).primary_ip6 = vm.primary_ip6 := by
  simp only [applyVMAttrs]
  refine ⟨?_, ?_, ?_⟩ <;>
    · repeat' split
      all_goals rfl

/-- C8 as frozen is false at this input: with primary_ip4 = "10.0.0.5" in
the diff and a matching interface/IP pair in the store, the loop does set
and save the VM-level pointer — the mid-update store shows it — but at the
update's return the store's pointer is back to `none`: the closing
bookkeeping save of the VM instance fetched before the loop reverted it,
so the configured primary is not persisted. -/
theorem vm_update_primary_pointer_reverted_at_return :
    (primaryLoop ⟨none, none, none, none, none, some "10.0.0.5", none⟩ "vm1"
      exampleStore).vms =
      [⟨"vm1", "Active", "c1", none, none, none, some ("10.0.0.5", 24), none⟩] ∧
    (virtualMachineUpdate ⟨true, true, "vSphere", "DefaultCluster"⟩ ⟨"vm1"⟩
      ⟨none, none, none, none, none, some "10.0.0.5", none⟩ exampleStore).store.vms =
      [⟨"vm1", "Active", "c1", none, none, none, none, none⟩] := ⟨rfl, rfl⟩

/-- C8 (amended): with a truthy primary_ip4/primary_ip6 in the diff, the
update's loop visits every interface/IP pair owned by the VM; each IP
whose host equals the configured primary address of the matching version
sets the VM-level pointer through the interface's owning device and saves
it (so after the loop the row holds the last matching pair per version),
and IPs that do not match leave the pointer unchanged — but the closing
`tag_object(virtual_machine)` persists the instance fetched before the
loop, so the returned store's primary pointers equal the pre-update
ones. -/
theorem vm_update_primary_transitive_then_reverted :
    (∀ (attrs : VirtualMachineUpdateAttrs) (vmName : String) (st : Store) (vm : VMRec),
      st.vms.filter (fun x => x.name == vmName) = [vm] →
      (primaryLoop attrs vmName st).vms =
        saveRec st.vms (fun x => x.name == vmName)
          ((vmPairs st vmName).foldl (primaryStep attrs) vm)) ∧
    (∀ (attrs : VirtualMachineUpdateAttrs) (pairs : List IPRec) (vm : VMRec),
      (pairs.foldl (primaryStep attrs) vm).primary_ip4 =
        (match lastPrimaryMatch pairs attrs 4 with
         | some k => some k
         | none => vm.primary_ip4) ∧
      (pairs.foldl (primaryStep attrs) vm).primary_ip6 =
        (match lastPrimaryMatch pairs attrs 6 with
         | some k => some k
         | none => vm.primary_ip6)) ∧
    (∀ (cfg : Config) (node : DSVirtualMachine) (attrs : VirtualMachineUpdateAttrs)
        (st : Store) (vm0 : VMRec),
      dget st.vms (fun x => x.name == node.name) "VirtualMachine" = .ok vm0 →
      attrs.status = none →
      (truthyS attrs.primary_ip4 || truthyS attrs.primary_ip6) = true →
      ∃ vm1 : VMRec,
        (virtualMachineUpdate cfg node attrs st).store =
          { primaryLoop attrs vm0.name st with
              vms := saveRec (primaryLoop attrs vm0.name st).vms
                (fun x => x.name == vm1.name) vm1 } ∧
        vm1.name = vm0.name ∧
        vm1.primary_ip4 = vm0.primary_ip4 ∧ vm1.primary_ip6 = vm0.primary_ip6) := by
  refine ⟨primaryLoop_collapse, ?_, ?_⟩
  · intro attrs pairs vm
    exact ⟨foldl_primaryStep_ip4 attrs pairs vm, foldl_primaryStep_ip6 attrs pairs vm⟩
  · intro cfg node attrs st vm0 hget hstat hguard
    refine ⟨applyVMAttrs cfg vm0 attrs, ?_,
      (applyVMAttrs_preserves cfg vm0 attrs).1,
      (applyVMAttrs_preserves cfg vm0 attrs).2.1,
      (applyVMAttrs_preserves cfg vm0 attrs).2.2⟩
    simp only [virtualMachineUpdate, hget, hstat, hguard, if_true]
    exact rfl

/-- Witness for the C8 theorem at the example store: the loop collapse,
the last-match characterization on the store's single pair, and the
reverting final save. -/
theorem vm_update_primary_transitive_then_reverted_witness :
    ((primaryLoop ⟨none, none, none, none, none, some "10.0.0.5", none⟩ "vm1"
        exampleStore).vms =
      saveRec exampleStore.vms (fun x => x.name == "vm1")
        ((vmPairs exampleStore "vm1").foldl
          (primaryStep ⟨none, none, none, none, none, some "10.0.0.5", none⟩)
          ⟨"vm1", "Active", "c1", none, none, none, none, none⟩)) ∧
    (([⟨"10.0.0.5", 24, "Active"⟩] : List IPRec).foldl
        (primaryStep ⟨none, none, none, none, none, some "10.0.0.5", none⟩)
        ⟨"vm1", "Active", "c1", none, none, none, none, none⟩).primary_ip4 =
      (match lastPrimaryMatch [⟨"10.0.0.5", 24, "Active"⟩]
          ⟨none, none, none, none, none, some "10.0.0.5", none⟩ 4 with
       | some k => some k
       | none => (none : Option IPKey)) ∧
    (∃ vm1 : VMRec,
      (virtualMachineUpdate ⟨true, true, "vSphere", "DefaultCluster"⟩ ⟨"vm1"⟩
        ⟨none, none, none, none, none, some "10.0.0.5", none⟩ exampleStore).store =
        { primaryLoop ⟨none, none, none, none, none, some "10.0.0.5", none⟩ "vm1"
            exampleStore with
            vms := saveRec (primaryLoop
                ⟨none, none, none, none, none, some "10.0.0.5", none⟩ "vm1"
                exampleStore).vms (fun x => x.name == vm1.name) vm1 } ∧
      vm1.name = "vm1" ∧ vm1.primary_ip4 = none ∧ vm1.primary_ip6 = none) := by
  obtain ⟨h1, h2, h3⟩ := vm_update_primary_transitive_then_reverted
  refine ⟨h1 ⟨none, none, none, none, none, some "10.0.0.5", none⟩ "vm1" exampleStore
      ⟨"vm1", "Active", "c1", none, none, none, none, none⟩ rfl,
    (h2 ⟨none, none, none, none, none, some "10.0.0.5", none⟩ [⟨"10.0.0.5", 24, "Active"⟩]
      ⟨"vm1", "Active", "c1", none, none, none, none, none⟩).1,
    h3 ⟨true, true, "vSphere", "DefaultCluster"⟩ ⟨"vm1"⟩
      ⟨none, none, none, none, none, some "10.0.0.5", none⟩ exampleStore
      ⟨"vm1", "Active", "c1", none, none, none, none, none⟩ rfl rfl rfl⟩

/-! ## Idempotence of the create operations (C9) -/

/-- A filter refining an empty filter is empty. -/
theorem filter_nil_of_imp {α : Type} {l : List α} {p q : α → Bool}
    (h : l.filter q = []) (himp : ∀ x, p x = true → q x = true) :
    l.filter p = [] := by
  rw [List.filter_eq_nil_iff] at h ⊢
  exact fun x hx hp' => h x hx (himp x hp')

/-- No element passes a predicate refining an empty filter. -/
theorem any_eq_false_of_filter_nil {α : Type} {l : List α} {c q : α → Bool}
    (h : l.filter q = []) (himp : ∀ x, c x = true → q x = true) :
    l.any c = false := by
  rw [List.filter_eq_nil_iff] at h
  rw [List.any_eq_false]
  exact fun x hx hc => h x hx (himp x hc)

/-- Appending the one matching row to a filter-empty list gives a
singleton filter. -/
theorem filter_append_singleton {α : Type} {l : List α} {p : α → Bool} {r : α}
    (h : l.filter p = []) (hr : p r = true) : (l ++ [r]).filter p = [r] := by
  rw [List.filter_append, h, List.nil_append, List.filter_cons_of_pos hr]
  rfl

/-- `DiffSyncClusterGroup.create` is idempotent at the store level: with
no cluster group of that name, the first call inserts exactly one row and
the second call finds and reuses it, leaving the store unchanged. -/
theorem clusterGroupCreate_idem (ids : ClusterGroupIds) (st : Store)
    (h : st.clustergroups.filter (fun x => x.name == ids.name) = []) :
    clusterGroupCreate ids st =
      { store := { st with clustergroups :=
          st.clustergroups ++ [⟨ids.name, slugify ids.name⟩] }, registered := true } ∧
    clusterGroupCreate ids (clusterGroupCreate ids st).store =
      { store := (clusterGroupCreate ids st).store, registered := true } ∧
    ((clusterGroupCreate ids st).store.clustergroups.filter
      (fun x => x.name == ids.name)).length = 1 := by
  have hp : st.clustergroups.filter
      (fun x => x.name == ids.name && x.slug == slugify ids.name) = [] :=
    filter_nil_of_imp h (fun x hx => by
      simp only [Bool.and_eq_true] at hx
      exact hx.1)
  have hany : st.clustergroups.any (fun x => x.name == ids.name) = false :=
    any_eq_false_of_filter_nil h (fun x hx => hx)
  have hgoc : getOrCreate st.clustergroups
      (fun x => x.name == ids.name && x.slug == slugify ids.name)
      (fun x => x.name == ids.name)
      ⟨ids.name, slugify ids.name⟩ "ClusterGroup" =
      .ok (⟨ids.name, slugify ids.name⟩,
        st.clustergroups ++ [(⟨ids.name, slugify ids.name⟩ : ClusterGroupRec)], true) := by
    unfold getOrCreate
    rw [hp, hany]
    rfl
  have hid : ∀ x ∈ st.clustergroups ++ [(⟨ids.name, slugify ids.name⟩ : ClusterGroupRec)],
      (x.name == (⟨ids.name, slugify ids.name⟩ : ClusterGroupRec).name) = true →
      x = ⟨ids.name, slugify ids.name⟩ := by
    intro x hx hpk
    rcases List.mem_append.mp hx with hmem | hmem
    · exact absurd hpk (by
        rw [List.filter_eq_nil_iff] at h
        exact h x hmem)
    · exact List.mem_singleton.mp hmem
  have h1 : clusterGroupCreate ids st =
      { store := { st with clustergroups :=
          st.clustergroups ++ [⟨ids.name, slugify ids.name⟩] }, registered := true } := by
    simp only [clusterGroupCreate, hgoc]
    simp only [tagObject]
    rw [saveRec_id _ _ _ hid]
  refine ⟨h1, ?_, ?_⟩
  · rw [h1]
    have hp2 : (st.clustergroups ++
        [(⟨ids.name, slugify ids.name⟩ : ClusterGroupRec)]).filter
        (fun x => x.name == ids.name && x.slug == slugify ids.name) =
        [⟨ids.name, slugify ids.name⟩] :=
      filter_append_singleton hp (by simp)
    have hgoc2 : getOrCreate
        (st.clustergroups ++ [(⟨ids.name, slugify ids.name⟩ : ClusterGroupRec)])
        (fun x => x.name == ids.name && x.slug == slugify ids.name)
        (fun x => x.name == ids.name)
        ⟨ids.name, slugify ids.name⟩ "ClusterGroup" =
        .ok (⟨ids.name, slugify ids.name⟩,
          st.clustergroups ++ [(⟨ids.name, slugify ids.name⟩ : ClusterGroupRec)],
          false) := by
      unfold getOrCreate
      rw [hp2]
    simp only [clusterGroupCreate, hgoc2]
    simp only [tagObject]
    rw [saveRec_id _ _ _ hid]
  · rw [h1]
    show ((st.clustergroups ++ [(⟨ids.name, slugify ids.name⟩ : ClusterGroupRec)]).filter
      (fun x => x.name == ids.name)).length = 1
    rw [filter_append_singleton h (by simp)]
    rfl

/-- `DiffSyncCluster.create` is idempotent at the store level (shown for a
groupless diff with the default ClusterType not yet present): the first
call inserts the type and the cluster, the second finds and reuses both. -/
theorem clusterCreate_idem (cfg : Config) (ids : ClusterIds) (attrs : ClusterAttrs)
    (st : Store)
    (hcl : st.clusters.filter (fun x => x.name == ids.name) = [])
    (hct : st.clustertypes.filter (fun x => x.name == cfg.default_vsphere_type) = [])
    (hg : attrs.group = none) :
    clusterCreate cfg ids attrs st =
      { store := { st with
          clustertypes := st.clustertypes ++ [⟨cfg.default_vsphere_type⟩],
          clusters := st.clusters ++ [⟨ids.name, cfg.default_vsphere_type, none⟩] },
        registered := true } ∧
    clusterCreate cfg ids attrs (clusterCreate cfg ids attrs st).store =
      { store := (clusterCreate cfg ids attrs st).store, registered := true } ∧
    ((clusterCreate cfg ids attrs st).store.clusters.filter
      (fun x => x.name == ids.name)).length = 1 := by
  have hanyct : st.clustertypes.any (fun x => x.name == cfg.default_vsphere_type) = false :=
    any_eq_false_of_filter_nil hct (fun x hx => hx)
  have hgocCT : getOrCreate st.clustertypes
      (fun x => x.name == cfg.default_vsphere_type)
      (fun x => x.name == cfg.default_vsphere_type)
      ⟨cfg.default_vsphere_type⟩ "ClusterType" =
      .ok (⟨cfg.default_vsphere_type⟩,
        st.clustertypes ++ [(⟨cfg.default_vsphere_type⟩ : ClusterTypeRec)], true) := by
    unfold getOrCreate
    rw [hct, hanyct]
    rfl
  have hidct : ∀ x ∈ st.clustertypes ++ [(⟨cfg.default_vsphere_type⟩ : ClusterTypeRec)],
      (x.name == (⟨cfg.default_vsphere_type⟩ : ClusterTypeRec).name) = true →
      x = ⟨cfg.default_vsphere_type⟩ := by
    intro x hx hpk
    rcases List.mem_append.mp hx with hmem | hmem
    · exact absurd hpk (by
        rw [List.filter_eq_nil_iff] at hct
        exact hct x hmem)
    · exact List.mem_singleton.mp hmem
  have hpc : st.clusters.filter
      (fun x => x.name == ids.name && x.type == cfg.default_vsphere_type) = [] :=
    filter_nil_of_imp hcl (fun x hx => by
      simp only [Bool.and_eq_true] at hx
      exact hx.1)
  have hanycl : st.clusters.any (fun x => x.name == ids.name) = false :=
    any_eq_false_of_filter_nil hcl (fun x hx => hx)
  have hgocCL : getOrCreate st.clusters
      (fun x => x.name == ids.name && x.type == cfg.default_vsphere_type)
      (fun x => x.name == ids.name)
      ⟨ids.name, cfg.default_vsphere_type, none⟩ "Cluster" =
      .ok (⟨ids.name, cfg.default_vsphere_type, none⟩,
        st.clusters ++ [(⟨ids.name, cfg.default_vsphere_type, none⟩ : ClusterRec)],
        true) := by
    unfold getOrCreate
    rw [hpc, hanycl]
    rfl
  have hidcl : ∀ x ∈ st.clusters ++
      [(⟨ids.name, cfg.default_vsphere_type, none⟩ : ClusterRec)],
      (x.name == (⟨ids.name, cfg.default_vsphere_type, none⟩ : ClusterRec).name) = true →
      x = ⟨ids.name, cfg.default_vsphere_type, none⟩ := by
    intro x hx hpk
    rcases List.mem_append.mp hx with hmem | hmem
    · exact absurd hpk (by
        rw [List.filter_eq_nil_iff] at hcl
        exact hcl x hmem)
    · exact List.mem_singleton.mp hmem
  have h1 : clusterCreate cfg ids attrs st =
      { store := { st with
          clustertypes := st.clustertypes ++ [⟨cfg.default_vsphere_type⟩],
          clusters := st.clusters ++ [⟨ids.name, cfg.default_vsphere_type, none⟩] },
        registered := true } := by
    simp only [clusterCreate, hgocCT, tagObject, saveRec_id _ _ _ hidct, hgocCL, hg,
      saveRec_id _ _ _ hidcl]
  refine ⟨h1, ?_, ?_⟩
  · rw [h1]
    have hct2 : (st.clustertypes ++ [(⟨cfg.default_vsphere_type⟩ : ClusterTypeRec)]).filter
        (fun x => x.name == cfg.default_vsphere_type) = [⟨cfg.default_vsphere_type⟩] :=
      filter_append_singleton hct (by simp)
    have hgocCT2 : getOrCreate
        (st.clustertypes ++ [(⟨cfg.default_vsphere_type⟩ : ClusterTypeRec)])
        (fun x => x.name == cfg.default_vsphere_type)
        (fun x => x.name == cfg.default_vsphere_type)
        ⟨cfg.default_vsphere_type⟩ "ClusterType" =
        .ok (⟨cfg.default_vsphere_type⟩,
          st.clustertypes ++ [(⟨cfg.default_vsphere_type⟩ : ClusterTypeRec)], false) := by
      unfold getOrCreate
      rw [hct2]
    have hpc2 : (st.clusters ++
        [(⟨ids.name, cfg.default_vsphere_type, none⟩ : ClusterRec)]).filter
        (fun x => x.name == ids.name && x.type == cfg.default_vsphere_type) =
        [⟨ids.name, cfg.default_vsphere_type, none⟩] :=
      filter_append_singleton hpc (by simp)
    have hgocCL2 : getOrCreate
        (st.clusters ++ [(⟨ids.name, cfg.default_vsphere_type, none⟩ : ClusterRec)])
        (fun x => x.name == ids.name && x.type == cfg.default_vsphere_type)
        (fun x => x.name == ids.name)
        ⟨ids.name, cfg.default_vsphere_type, none⟩ "Cluster" =
        .ok (⟨ids.name, cfg.default_vsphere_type, none⟩,
          st.clusters ++ [(⟨ids.name, cfg.default_vsphere_type, none⟩ : ClusterRec)],
          false) := by
      unfold getOrCreate
      rw [hpc2]
    simp only [clusterCreate, hgocCT2, tagObject, saveRec_id _ _ _ hidct, hgocCL2, hg,
      saveRec_id _ _ _ hidcl]
  · rw [h1]
    show ((st.clusters ++ [(⟨ids.name, cfg.default_vsphere_type, none⟩ : ClusterRec)]).filter
      (fun x => x.name == ids.name)).length = 1
    rw [filter_append_singleton hcl (by simp)]
    rfl

/-- `DiffSyncVMInterface.create` is idempotent at the store level: with
the owning VM present and no interface under the (vm, name) identifier,
the first call inserts one row and the second finds and reuses it. -/
theorem vmInterfaceCreate_idem (ids : VMInterfaceIds) (attrs : VMInterfaceCreateAttrs)
    (st : Store) (vm : VMRec)
    (hvm : st.vms.filter (fun x => x.name == ids.virtual_machine) = [vm])
    (hni : st.vminterfaces.filter
      (fun x => x.virtual_machine == vm.name && x.name == ids.name) = []) :
    vmInterfaceCreate ids attrs st =
      { store := { st with vminterfaces := st.vminterfaces ++
          [⟨ids.name, vm.name, attrs.enabled, attrs.mac_address, []⟩] },
        registered := true } ∧
    vmInterfaceCreate ids attrs (vmInterfaceCreate ids attrs st).store =
      { store := (vmInterfaceCreate ids attrs st).store, registered := true } ∧
    ((vmInterfaceCreate ids attrs st).store.vminterfaces.filter
      (fun x => x.virtual_machine == vm.name && x.name == ids.name)).length = 1 := by
  have hdget : dget st.vms (fun x => x.name == ids.virtual_machine) "VirtualMachine" =
      .ok vm := by
    unfold dget
    rw [hvm]
  have hp : st.vminterfaces.filter (fun x => x.name == ids.name &&
      x.enabled == attrs.enabled && x.virtual_machine == vm.name &&
      x.mac_address == attrs.mac_address) = [] :=
    filter_nil_of_imp hni (fun x hx => by
      simp only [Bool.and_eq_true] at hx ⊢
      exact ⟨hx.1.2, hx.1.1.1⟩)
  have hany : st.vminterfaces.any
      (fun x => x.virtual_machine == vm.name && x.name == ids.name) = false :=
    any_eq_false_of_filter_nil hni (fun x hx => hx)
  have hgoc : getOrCreate st.vminterfaces
      (fun x => x.name == ids.name && x.enabled == attrs.enabled &&
        x.virtual_machine == vm.name && x.mac_address == attrs.mac_address)
      (fun x => x.virtual_machine == vm.name && x.name == ids.name)
      ⟨ids.name, vm.name, attrs.enabled, attrs.mac_address, []⟩ "VMInterface" =
      .ok (⟨ids.name, vm.name, attrs.enabled, attrs.mac_address, []⟩,
        st.vminterfaces ++
          [(⟨ids.name, vm.name, attrs.enabled, attrs.mac_address, []⟩ : VMInterfaceRec)],
        true) := by
    unfold getOrCreate
    rw [hp, hany]
    rfl
  have hid : ∀ x ∈ st.vminterfaces ++
      [(⟨ids.name, vm.name, attrs.enabled, attrs.mac_address, []⟩ : VMInterfaceRec)],
      (x.name == (⟨ids.name, vm.name, attrs.enabled, attrs.mac_address, []⟩ :
        VMInterfaceRec).name &&
       x.virtual_machine == (⟨ids.name, vm.name, attrs.enabled, attrs.mac_address, []⟩ :
        VMInterfaceRec).virtual_machine) = true →
      x = ⟨ids.name, vm.name, attrs.enabled, attrs.mac_address, []⟩ := by
    intro x hx hpk
    rcases List.mem_append.mp hx with hmem | hmem
    · refine absurd ?_ (by
        rw [List.filter_eq_nil_iff] at hni
        exact hni x hmem)
      simp only [Bool.and_eq_true] at hpk ⊢
      exact ⟨hpk.2, hpk.1⟩
    · exact List.mem_singleton.mp hmem
  have h1 : vmInterfaceCreate ids attrs st =
      { store := { st with vminterfaces := st.vminterfaces ++
          [⟨ids.name, vm.name, attrs.enabled, attrs.mac_address, []⟩] },
        registered := true } := by
    simp only [vmInterfaceCreate, hdget, hgoc, tagObject, saveRec_id _ _ _ hid]
  refine ⟨h1, ?_, ?_⟩
  · rw [h1]
    have hp2 : (st.vminterfaces ++
        [(⟨ids.name, vm.name, attrs.enabled, attrs.mac_address, []⟩ :
          VMInterfaceRec)]).filter
        (fun x => x.name == ids.name && x.enabled == attrs.enabled &&
          x.virtual_machine == vm.name && x.mac_address == attrs.mac_address) =
        [⟨ids.name, vm.name, attrs.enabled, attrs.mac_address, []⟩] :=
      filter_append_singleton hp (by simp)
    have hgoc2 : getOrCreate (st.vminterfaces ++
        [(⟨ids.name, vm.name, attrs.enabled, attrs.mac_address, []⟩ : VMInterfaceRec)])
        (fun x => x.name == ids.name && x.enabled == attrs.enabled &&
          x.virtual_machine == vm.name && x.mac_address == attrs.mac_address)
        (fun x => x.virtual_machine == vm.name && x.name == ids.name)
        ⟨ids.name, vm.name, attrs.enabled, attrs.mac_address, []⟩ "VMInterface" =
        .ok (⟨ids.name, vm.name, attrs.enabled, attrs.mac_address, []⟩,
          st.vminterfaces ++
            [(⟨ids.name, vm.name, attrs.enabled, attrs.mac_address, []⟩ :
              VMInterfaceRec)],
          false) := by
      unfold getOrCreate
      rw [hp2]
    simp only [vmInterfaceCreate, hdget, hgoc2, tagObject, saveRec_id _ _ _ hid]
  · rw [h1]
    show ((st.vminterfaces ++
      [(⟨ids.name, vm.name, attrs.enabled, attrs.mac_address, []⟩ :
        VMInterfaceRec)]).filter
      (fun x => x.virtual_machine == vm.name && x.name == ids.name)).length = 1
    rw [filter_append_singleton hni (by simp)]
    rfl

/-- `DiffSyncVirtualMachine.create` is idempotent at the store level
(shown under `DEFAULT_USE_CLUSTERS` with status and cluster present): the
first call inserts one VM row, the second finds and reuses it. -/
theorem virtualMachineCreate_idem (cfg : Config) (ids : VirtualMachineIds)
    (attrs : VirtualMachineCreateAttrs) (st : Store) (stt : StatusRec) (cl : ClusterRec)
    (hcfg : cfg.default_use_clusters = true)
    (hst : st.statuses.filter (fun x => some x.name == attrs.status) = [stt])
    (hcl : st.clusters.filter (fun x => some x.name == attrs.cluster) = [cl])
    (hvm : st.vms.filter (fun x => x.name == ids.name) = []) :
    virtualMachineCreate cfg ids attrs st =
      { store := { st with vms := st.vms ++
          [⟨ids.name, stt.name, cl.name, attrs.vcpus, attrs.memory, attrs.disk,
            none, none⟩] },
        registered := true } ∧
    virtualMachineCreate cfg ids attrs (virtualMachineCreate cfg ids attrs st).store =
      { store := (virtualMachineCreate cfg ids attrs st).store, registered := true } ∧
    ((virtualMachineCreate cfg ids attrs st).store.vms.filter
      (fun x => x.name == ids.name)).length = 1 := by
  have hdst : dget st.statuses (fun x => some x.name == attrs.status) "Status" =
      .ok stt := by
    unfold dget
    rw [hst]
  have hdcl : dget st.clusters (fun x => some x.name == attrs.cluster) "Cluster" =
      .ok cl := by
    unfold dget
    rw [hcl]
  have hp : st.vms.filter (fun x => x.name == ids.name && x.status == stt.name &&
      x.cluster == cl.name && x.vcpus == attrs.vcpus && x.memory == attrs.memory &&
      x.disk == attrs.disk) = [] :=
    filter_nil_of_imp hvm (fun x hx => by
      simp only [Bool.and_eq_true] at hx
      exact hx.1.1.1.1.1)
  have hany : st.vms.any (fun x => x.name == ids.name) = false :=
    any_eq_false_of_filter_nil hvm (fun x hx => hx)
  have hgoc : getOrCreate st.vms
      (fun x => x.name == ids.name && x.status == stt.name && x.cluster == cl.name &&
        x.vcpus == attrs.vcpus && x.memory == attrs.memory && x.disk == attrs.disk)
      (fun x => x.name == ids.name)
      ⟨ids.name, stt.name, cl.name, attrs.vcpus, attrs.memory, attrs.disk, none, none⟩
      "VirtualMachine" =
      .ok (⟨ids.name, stt.name, cl.name, attrs.vcpus, attrs.memory, attrs.disk,
          none, none⟩,
        st.vms ++ [(⟨ids.name, stt.name, cl.name, attrs.vcpus, attrs.memory,
          attrs.disk, none, none⟩ : VMRec)], true) := by
    unfold getOrCreate
    rw [hp, hany]
    rfl
  have hid : ∀ x ∈ st.vms ++ [(⟨ids.name, stt.name, cl.name, attrs.vcpus, attrs.memory,
      attrs.disk, none, none⟩ : VMRec)],
      (x.name == (⟨ids.name, stt.name, cl.name, attrs.vcpus, attrs.memory, attrs.disk,
        none, none⟩ : VMRec).name) = true →
      x = ⟨ids.name, stt.name, cl.name, attrs.vcpus, attrs.memory, attrs.disk,
        none, none⟩ := by
    intro x hx hpk
    rcases List.mem_append.mp hx with hmem | hmem
    · exact absurd hpk (by
        rw [List.filter_eq_nil_iff] at hvm
        exact hvm x hmem)
    · exact List.mem_singleton.mp hmem
  have h1 : virtualMachineCreate cfg ids attrs st =
      { store := { st with vms := st.vms ++
          [⟨ids.name, stt.name, cl.name, attrs.vcpus, attrs.memory, attrs.disk,
            none, none⟩] },
        registered := true } := by
    simp only [virtualMachineCreate, hcfg, if_true, hdst, hdcl, Except.map, hgoc,
      tagObject, saveRec_id _ _ _ hid]
  refine ⟨h1, ?_, ?_⟩
  · rw [h1]
    have hp2 : (st.vms ++ [(⟨ids.name, stt.name, cl.name, attrs.vcpus, attrs.memory,
        attrs.disk, none, none⟩ : VMRec)]).filter
        (fun x => x.name == ids.name && x.status == stt.name && x.cluster == cl.name &&
          x.vcpus == attrs.vcpus && x.memory == attrs.memory && x.disk == attrs.disk) =
        [⟨ids.name, stt.name, cl.name, attrs.vcpus, attrs.memory, attrs.disk,
          none, none⟩] :=
      filter_append_singleton hp (by simp)
    have hgoc2 : getOrCreate (st.vms ++ [(⟨ids.name, stt.name, cl.name, attrs.vcpus,
        attrs.memory, attrs.disk, none, none⟩ : VMRec)])
        (fun x => x.name == ids.name && x.status == stt.name && x.cluster == cl.name &&
          x.vcpus == attrs.vcpus && x.memory == attrs.memory && x.disk == attrs.disk)
        (fun x => x.name == ids.name)
        ⟨ids.name, stt.name, cl.name, attrs.vcpus, attrs.memory, attrs.disk, none, none⟩
        "VirtualMachine" =
        .ok (⟨ids.name, stt.name, cl.name, attrs.vcpus, attrs.memory, attrs.disk,
            none, none⟩,
          st.vms ++ [(⟨ids.name, stt.name, cl.name, attrs.vcpus, attrs.memory,
            attrs.disk, none, none⟩ : VMRec)], false) := by
      unfold getOrCreate
      rw [hp2]
    simp only [virtualMachineCreate, hcfg, if_true, hdst, hdcl, Except.map, hgoc2,
      tagObject, saveRec_id _ _ _ hid]
  · rw [h1]
    show ((st.vms ++ [(⟨ids.name, stt.name, cl.name, attrs.vcpus, attrs.memory,
      attrs.disk, none, none⟩ : VMRec)]).filter
      (fun x => x.name == ids.name)).length = 1
    rw [filter_append_singleton hvm (by simp)]
    rfl

/-- `DiffSyncHost.create` is idempotent at the store level: with every
dependency present and no device under the (case-insensitive) name, the
first call inserts one Device row and the second updates it in place with
the same values. -/
theorem hostCreate_idem (ids : HostIds) (attrs : HostCreateAttrs) (st : Store)
    (stt : StatusRec) (dt : DeviceTypeRec) (dr : DeviceRoleRec) (c : String)
    (cl : ClusterRec) (site : SiteRec)
    (hstA : st.statuses.filter (fun x => x.name == "Active") = [stt])
    (hdt : st.devicetypes.filter (fun x => x.model == attrs.device_type) = [dt])
    (hdr : st.deviceroles.filter (fun x => x.name == attrs.device_role) = [dr])
    (hclu : attrs.cluster = some c)
    (hcl : st.clusters.filter (fun x => x.name == c) = [cl])
    (hsite : st.sites.filter (fun x => x.slug == attrs.site) = [site])
    (hdev : st.devices.filter (fun x => strLower x.name == strLower ids.name) = []) :
    hostCreate ids attrs st =
      { store := { st with devices := st.devices ++
          [⟨ids.name, stt.name, dr.name, dt.model, cl.name, site.slug⟩] },
        registered := true } ∧
    hostCreate ids attrs (hostCreate ids attrs st).store =
      { store := (hostCreate ids attrs st).store, registered := true } ∧
    ((hostCreate ids attrs st).store.devices.filter
      (fun x => x.name == ids.name)).length = 1 := by
  have hdst : dget st.statuses (fun x => x.name == "Active") "Status" = .ok stt := by
    unfold dget
    rw [hstA]
  have hddt : dget st.devicetypes (fun x => x.model == attrs.device_type) "DeviceType" =
      .ok dt := by
    unfold dget
    rw [hdt]
  have hddr : dget st.deviceroles (fun x => x.name == attrs.device_role) "DeviceRole" =
      .ok dr := by
    unfold dget
    rw [hdr]
  have hdcl : dget st.clusters (fun x => x.name == c) "Cluster" = .ok cl := by
    unfold dget
    rw [hcl]
  have hdsite : dget st.sites (fun x => x.slug == attrs.site) "Site" = .ok site := by
    unfold dget
    rw [hsite]
  have hexact : ∀ (x : DeviceRec), (x.name == ids.name) = true →
      (strLower x.name == strLower ids.name) = true := by
    intro x hx
    simp only [beq_iff_eq] at hx ⊢
    rw [hx]
  have hany : st.devices.any (fun x => x.name == ids.name) = false :=
    any_eq_false_of_filter_nil hdev hexact
  have huoc : updateOrCreate st.devices
      (fun x => strLower x.name == strLower ids.name)
      (fun x => x.name == ids.name)
      ⟨ids.name, stt.name, dr.name, dt.model, cl.name, site.slug⟩ "Device" =
      .ok (⟨ids.name, stt.name, dr.name, dt.model, cl.name, site.slug⟩,
        st.devices ++ [(⟨ids.name, stt.name, dr.name, dt.model, cl.name, site.slug⟩ :
          DeviceRec)], true) := by
    unfold updateOrCreate
    rw [hdev, hany]
    rfl
  have hid : ∀ x ∈ st.devices ++ [(⟨ids.name, stt.name, dr.name, dt.model, cl.name,
      site.slug⟩ : DeviceRec)],
      (x.name == (⟨ids.name, stt.name, dr.name, dt.model, cl.name, site.slug⟩ :
        DeviceRec).name) = true →
      x = ⟨ids.name, stt.name, dr.name, dt.model, cl.name, site.slug⟩ := by
    intro x hx hpk
    rcases List.mem_append.mp hx with hmem | hmem
    · exact absurd (hexact x hpk) (by
        rw [List.filter_eq_nil_iff] at hdev
        exact hdev x hmem)
    · exact List.mem_singleton.mp hmem
  have h1 : hostCreate ids attrs st =
      { store := { st with devices := st.devices ++
          [⟨ids.name, stt.name, dr.name, dt.model, cl.name, site.slug⟩] },
        registered := true } := by
    simp only [hostCreate, hdst, hddt, hddr, hclu, hdcl, hdsite, huoc, tagObject,
      saveRec_id _ _ _ hid]
  refine ⟨h1, ?_, ?_⟩
  · rw [h1]
    have hiex2 : (st.devices ++ [(⟨ids.name, stt.name, dr.name, dt.model, cl.name,
        site.slug⟩ : DeviceRec)]).filter
        (fun x => strLower x.name == strLower ids.name) =
        [⟨ids.name, stt.name, dr.name, dt.model, cl.name, site.slug⟩] :=
      filter_append_singleton hdev (by simp)
    have hid2 : ∀ x ∈ st.devices ++ [(⟨ids.name, stt.name, dr.name, dt.model, cl.name,
        site.slug⟩ : DeviceRec)],
        (strLower x.name == strLower ids.name) = true →
        x = ⟨ids.name, stt.name, dr.name, dt.model, cl.name, site.slug⟩ := by
      intro x hx hpk
      rcases List.mem_append.mp hx with hmem | hmem
      · exact absurd hpk (by
          rw [List.filter_eq_nil_iff] at hdev
          exact hdev x hmem)
      · exact List.mem_singleton.mp hmem
    have huoc2 : updateOrCreate (st.devices ++ [(⟨ids.name, stt.name, dr.name, dt.model,
        cl.name, site.slug⟩ : DeviceRec)])
        (fun x => strLower x.name == strLower ids.name)
        (fun x => x.name == ids.name)
        ⟨ids.name, stt.name, dr.name, dt.model, cl.name, site.slug⟩ "Device" =
        .ok (⟨ids.name, stt.name, dr.name, dt.model, cl.name, site.slug⟩,
          st.devices ++ [(⟨ids.name, stt.name, dr.name, dt.model, cl.name, site.slug⟩ :
            DeviceRec)], false) := by
      unfold updateOrCreate
      rw [hiex2]
      simp only [Except.ok.injEq, Prod.mk.injEq, true_and, and_true]
      exact saveRec_id _ _ _ hid2
    simp only [hostCreate, hdst, hddt, hddr, hclu, hdcl, hdsite, huoc2, tagObject,
      saveRec_id _ _ _ hid]
  · rw [h1]
    show ((st.devices ++ [(⟨ids.name, stt.name, dr.name, dt.model, cl.name,
      site.slug⟩ : DeviceRec)]).filter (fun x => x.name == ids.name)).length = 1
    have hex0 : st.devices.filter (fun x => x.name == ids.name) = [] :=
      filter_nil_of_imp hdev hexact
    rw [filter_append_singleton hex0 (by simp)]
    rfl

/-- Saving through pointwise-equal key predicates is the same save. -/
theorem saveRec_congr {α : Type} (l : List α) (p q : α → Bool) (r : α)
    (h : ∀ x, p x = q x) : saveRec l p r = saveRec l q r := by
  induction l with
  | nil => rfl
  | cons a t ih =>
    show (if p a then r else a) :: saveRec t p r = (if q a then r else a) :: saveRec t q r
    rw [h a, ih]

/-- `==` on coinciding `Option` constructors is `==` on the contents. -/
theorem some_beq_some {α : Type} [BEq α] (a b : α) :
    (some a == some b) = (a == b) := rfl

/-- `DiffSyncIpAddress.create` is idempotent at the store level: with the
owning VM, interface and status present, no row under the address and the
address not yet attached to the interface, the first call inserts the one
IPAddress row and attaches it, and the second finds and reuses everything,
leaving the store unchanged. -/
theorem ipAddressCreate_idem (ids : IpAddressIds) (attrs : IpAddressCreateAttrs)
    (st : Store) (vm : VMRec) (iface : VMInterfaceRec) (stt : StatusRec)
    (hvmf : st.vms.filter (fun x => some x.name == attrs.vm_name) = [vm])
    (hiff : st.vminterfaces.filter
      (fun x => some x.name == attrs.vm_interface_name && x.virtual_machine == vm.name) =
      [iface])
    (hstf : st.statuses.filter (fun x => some x.name == attrs.state) = [stt])
    (hipn : st.ipaddresses.filter
      (fun x => x.host == ids.ip_address && x.prefix_length == ids.prefix_length) = [])
    (hkey : iface.ip_addresses.contains (ids.ip_address, ids.prefix_length) = false) :
    ipAddressCreate ids attrs st =
      { store := { st with
          vminterfaces := saveRec st.vminterfaces
            (fun x => x.name == iface.name && x.virtual_machine == iface.virtual_machine)
            { iface with ip_addresses :=
              iface.ip_addresses ++ [(ids.ip_address, ids.prefix_length)] },
          ipaddresses := st.ipaddresses ++
            [⟨ids.ip_address, ids.prefix_length, stt.name⟩] },
        registered := true } ∧
    ipAddressCreate ids attrs (ipAddressCreate ids attrs st).store =
      { store := (ipAddressCreate ids attrs st).store, registered := true } ∧
    ((ipAddressCreate ids attrs st).store.ipaddresses.filter
      (fun x => x.host == ids.ip_address && x.prefix_length == ids.prefix_length)).length
      = 1 := by
  have hdvm : dget st.vms (fun x => some x.name == attrs.vm_name) "VirtualMachine" =
      .ok vm := by
    unfold dget
    rw [hvmf]
  have hdif : dget st.vminterfaces
      (fun x => some x.name == attrs.vm_interface_name && x.virtual_machine == vm.name)
      "VMInterface" = .ok iface := by
    unfold dget
    rw [hiff]
  have hdst : dget st.statuses (fun x => some x.name == attrs.state) "Status" =
      .ok stt := by
    unfold dget
    rw [hstf]
  have hifprop := (mem_filter_self hiff).1
  have hifname : attrs.vm_interface_name = some iface.name := by
    simp only [Bool.and_eq_true, beq_iff_eq] at hifprop
    exact hifprop.1.symm
  have hifvm : iface.virtual_machine = vm.name := by
    simp only [Bool.and_eq_true, beq_iff_eq] at hifprop
    exact hifprop.2
  have hpip : st.ipaddresses.filter (fun x => x.host == ids.ip_address &&
      x.prefix_length == ids.prefix_length && x.status == stt.name) = [] :=
    filter_nil_of_imp hipn (fun x hx => by
      simp only [Bool.and_eq_true] at hx ⊢
      exact hx.1)
  have hanyip : st.ipaddresses.any
      (fun x => x.host == ids.ip_address && x.prefix_length == ids.prefix_length) =
      false :=
    any_eq_false_of_filter_nil hipn (fun x hx => hx)
  have hgoc : getOrCreate st.ipaddresses
      (fun x => x.host == ids.ip_address && x.prefix_length == ids.prefix_length &&
        x.status == stt.name)
      (fun x => x.host == ids.ip_address && x.prefix_length == ids.prefix_length)
      ⟨ids.ip_address, ids.prefix_length, stt.name⟩ "IPAddress" =
      .ok (⟨ids.ip_address, ids.prefix_length, stt.name⟩,
        st.ipaddresses ++ [(⟨ids.ip_address, ids.prefix_length, stt.name⟩ : IPRec)],
        true) := by
    unfold getOrCreate
    rw [hpip, hanyip]
    rfl
  have hidip : ∀ x ∈ st.ipaddresses ++
      [(⟨ids.ip_address, ids.prefix_length, stt.name⟩ : IPRec)],
      (x.host == (⟨ids.ip_address, ids.prefix_length, stt.name⟩ : IPRec).host &&
       x.prefix_length ==
         (⟨ids.ip_address, ids.prefix_length, stt.name⟩ : IPRec).prefix_length) = true →
      x = ⟨ids.ip_address, ids.prefix_length, stt.name⟩ := by
    intro x hx hpk
    rcases List.mem_append.mp hx with hmem | hmem
    · exact absurd hpk (by
        rw [List.filter_eq_nil_iff] at hipn
        exact hipn x hmem)
    · exact List.mem_singleton.mp hmem
  have h1 : ipAddressCreate ids attrs st =
      { store := { st with
          vminterfaces := saveRec st.vminterfaces
            (fun x => x.name == iface.name && x.virtual_machine == iface.virtual_machine)
            { iface with ip_addresses :=
              iface.ip_addresses ++ [(ids.ip_address, ids.prefix_length)] },
          ipaddresses := st.ipaddresses ++
            [⟨ids.ip_address, ids.prefix_length, stt.name⟩] },
        registered := true } := by
    simp only [ipAddressCreate, hdvm, hdif, hdst, hgoc, hkey, Bool.false_eq_true,
      if_false, tagObject, saveRec_id _ _ _ hidip]
  refine ⟨h1, ?_, ?_⟩
  · rw [h1]
    have hprednew : ((fun x => some x.name == attrs.vm_interface_name &&
        x.virtual_machine == vm.name) :  VMInterfaceRec → Bool)
        { iface with ip_addresses :=
          iface.ip_addresses ++ [(ids.ip_address, ids.prefix_length)] } = true := by
      simp [hifname, hifvm]
    have hcongr : saveRec st.vminterfaces
        (fun x => x.name == iface.name && x.virtual_machine == iface.virtual_machine)
        { iface with ip_addresses :=
          iface.ip_addresses ++ [(ids.ip_address, ids.prefix_length)] } =
        saveRec st.vminterfaces
        (fun x => some x.name == attrs.vm_interface_name &&
          x.virtual_machine == vm.name)
        { iface with ip_addresses :=
          iface.ip_addresses ++ [(ids.ip_address, ids.prefix_length)] } :=
      saveRec_congr _ _ _ _ (fun x => by
        rw [hifname, hifvm, some_beq_some])
    have hif2 : (saveRec st.vminterfaces
        (fun x => x.name == iface.name && x.virtual_machine == iface.virtual_machine)
        { iface with ip_addresses :=
          iface.ip_addresses ++ [(ids.ip_address, ids.prefix_length)] }).filter
        (fun x => some x.name == attrs.vm_interface_name &&
          x.virtual_machine == vm.name) =
        [{ iface with ip_addresses :=
          iface.ip_addresses ++ [(ids.ip_address, ids.prefix_length)] }] := by
      rw [hcongr]
      exact saveRec_filter _ hiff hprednew
    have hdif2 : dget (saveRec st.vminterfaces
        (fun x => x.name == iface.name && x.virtual_machine == iface.virtual_machine)
        { iface with ip_addresses :=
          iface.ip_addresses ++ [(ids.ip_address, ids.prefix_length)] })
        (fun x => some x.name == attrs.vm_interface_name &&
          x.virtual_machine == vm.name) "VMInterface" =
        .ok { iface with ip_addresses :=
          iface.ip_addresses ++ [(ids.ip_address, ids.prefix_length)] } := by
      unfold dget
      rw [hif2]
    have hpip2 : (st.ipaddresses ++
        [(⟨ids.ip_address, ids.prefix_length, stt.name⟩ : IPRec)]).filter
        (fun x => x.host == ids.ip_address && x.prefix_length == ids.prefix_length &&
          x.status == stt.name) =
        [⟨ids.ip_address, ids.prefix_length, stt.name⟩] :=
      filter_append_singleton hpip (by simp)
    have hgoc2 : getOrCreate (st.ipaddresses ++
        [(⟨ids.ip_address, ids.prefix_length, stt.name⟩ : IPRec)])
        (fun x => x.host == ids.ip_address && x.prefix_length == ids.prefix_length &&
          x.status == stt.name)
        (fun x => x.host == ids.ip_address && x.prefix_length == ids.prefix_length)
        ⟨ids.ip_address, ids.prefix_length, stt.name⟩ "IPAddress" =
        .ok (⟨ids.ip_address, ids.prefix_length, stt.name⟩,
          st.ipaddresses ++ [(⟨ids.ip_address, ids.prefix_length, stt.name⟩ : IPRec)],
          false) := by
      unfold getOrCreate
      rw [hpip2]
    have hkey2 : ({ iface with ip_addresses :=
        iface.ip_addresses ++ [(ids.ip_address, ids.prefix_length)] } :
        VMInterfaceRec).ip_addresses.contains (ids.ip_address, ids.prefix_length) =
        true := by
      simp
    have hsave2 : saveRec (saveRec st.vminterfaces
        (fun x => x.name == iface.name && x.virtual_machine == iface.virtual_machine)
        { iface with ip_addresses :=
          iface.ip_addresses ++ [(ids.ip_address, ids.prefix_length)] })
        (fun x => x.name == iface.name && x.virtual_machine == iface.virtual_machine)
        { iface with ip_addresses :=
          iface.ip_addresses ++ [(ids.ip_address, ids.prefix_length)] } =
        saveRec st.vminterfaces
        (fun x => x.name == iface.name && x.virtual_machine == iface.virtual_machine)
        { iface with ip_addresses :=
          iface.ip_addresses ++ [(ids.ip_address, ids.prefix_length)] } :=
      saveRec_saveRec _ _ _ _ (by simp)
    simp only [ipAddressCreate, hdvm, hdif2, hdst, hgoc2, hkey2, if_true, tagObject,
      saveRec_id _ _ _ hidip, hsave2]
  · rw [h1]
    show ((st.ipaddresses ++
      [(⟨ids.ip_address, ids.prefix_length, stt.name⟩ : IPRec)]).filter
      (fun x => x.host == ids.ip_address && x.prefix_length == ids.prefix_length)).length
      = 1
    rw [filter_append_singleton hipn (by simp)]
    rfl

/-- C9: every entity kind's create is idempotent at the store level —
invoked twice with identical inputs against a target state holding the
dependencies but no record under the identifier, the second invocation
finds and reuses what the first wrote (returning with the store unchanged
and no warning logged) and exactly one record carries that identifier. -/
theorem creates_idempotent_at_store_level :
    (∀ (ids : ClusterGroupIds) (st : Store),
      st.clustergroups.filter (fun x => x.name == ids.name) = [] →
      clusterGroupCreate ids (clusterGroupCreate ids st).store =
        { store := (clusterGroupCreate ids st).store, registered := true } ∧
      ((clusterGroupCreate ids st).store.clustergroups.filter
        (fun x => x.name == ids.name)).length = 1) ∧
    (∀ (cfg : Config) (ids : ClusterIds) (attrs : ClusterAttrs) (st : Store),
      st.clusters.filter (fun x => x.name == ids.name) = [] →
      st.clustertypes.filter (fun x => x.name == cfg.default_vsphere_type) = [] →
      attrs.group = none →
      clusterCreate cfg ids attrs (clusterCreate cfg ids attrs st).store =
        { store := (clusterCreate cfg ids attrs st).store, registered := true } ∧
      ((clusterCreate cfg ids attrs st).store.clusters.filter
        (fun x => x.name == ids.name)).length = 1) ∧
    (∀ (ids : VMInterfaceIds) (attrs : VMInterfaceCreateAttrs) (st : Store) (vm : VMRec),
      st.vms.filter (fun x => x.name == ids.virtual_machine) = [vm] →
      st.vminterfaces.filter
        (fun x => x.virtual_machine == vm.name && x.name == ids.name) = [] →
      vmInterfaceCreate ids attrs (vmInterfaceCreate ids attrs st).store =
        { store := (vmInterfaceCreate ids attrs st).store, registered := true } ∧
      ((vmInterfaceCreate ids attrs st).store.vminterfaces.filter
        (fun x => x.virtual_machine == vm.name && x.name == ids.name)).length = 1) ∧
    (∀ (ids : IpAddressIds) (attrs : IpAddressCreateAttrs) (st : Store) (vm : VMRec)
        (iface : VMInterfaceRec) (stt : StatusRec),
      st.vms.filter (fun x => some x.name == attrs.vm_name) = [vm] →
      st.vminterfaces.filter (fun x => some x.name == attrs.vm_interface_name &&
        x.virtual_machine == vm.name) = [iface] →
      st.statuses.filter (fun x => some x.name == attrs.state) = [stt] →
      st.ipaddresses.filter (fun x => x.host == ids.ip_address &&
        x.prefix_length == ids.prefix_length) = [] →
      iface.ip_addresses.contains (ids.ip_address, ids.prefix_length) = false →
      ipAddressCreate ids attrs (ipAddressCreate ids attrs st).store =
        { store := (ipAddressCreate ids attrs st).store, registered := true } ∧
      ((ipAddressCreate ids attrs st).store.ipaddresses.filter
        (fun x => x.host == ids.ip_address &&
          x.prefix_length == ids.prefix_length)).length = 1) ∧
    (∀ (cfg : Config) (ids : VirtualMachineIds) (attrs : VirtualMachineCreateAttrs)
        (st : Store) (stt : StatusRec) (cl : ClusterRec),
      cfg.default_use_clusters = true →
      st.statuses.filter (fun x => some x.name == attrs.status) = [stt] →
      st.clusters.filter (fun x => some x.name == attrs.cluster) = [cl] →
      st.vms.filter (fun x => x.name == ids.name) = [] →
      virtualMachineCreate cfg ids attrs (virtualMachineCreate cfg ids attrs st).store =
        { store := (virtualMachineCreate cfg ids attrs st).store, registered := true } ∧
      ((virtualMachineCreate cfg ids attrs st).store.vms.filter
        (fun x => x.name == ids.name)).length = 1) ∧
    (∀ (ids : HostIds) (attrs : HostCreateAttrs) (st : Store) (stt : StatusRec)
        (dt : DeviceTypeRec) (dr : DeviceRoleRec) (c : String) (cl : ClusterRec)
        (site : SiteRec),
      st.statuses.filter (fun x => x.name == "Active") = [stt] →
      st.devicetypes.filter (fun x => x.model == attrs.device_type) = [dt] →
      st.deviceroles.filter (fun x => x.name == attrs.device_role) = [dr] →
      attrs.cluster = some c →
      st.clusters.filter (fun x => x.name == c) = [cl] →
      st.sites.filter (fun x => x.slug == attrs.site) = [site] →
      st.devices.filter (fun x => strLower x.name == strLower ids.name) = [] →
      hostCreate ids attrs (hostCreate ids attrs st).store =
        { store := (hostCreate ids attrs st).store, registered := true } ∧
      ((hostCreate ids attrs st).store.devices.filter
        (fun x => x.name == ids.name)).length = 1) := by
  refine ⟨?_, ?_, ?_, ?_, ?_, ?_⟩
  · intro ids st h
    exact (clusterGroupCreate_idem ids st h).2
  · intro cfg ids attrs st h1 h2 h3
    exact (clusterCreate_idem cfg ids attrs st h1 h2 h3).2
  · intro ids attrs st vm h1 h2
    exact (vmInterfaceCreate_idem ids attrs st vm h1 h2).2
  · intro ids attrs st vm iface stt h1 h2 h3 h4 h5
    exact (ipAddressCreate_idem ids attrs st vm iface stt h1 h2 h3 h4 h5).2
  · intro cfg ids attrs st stt cl h1 h2 h3 h4
    exact (virtualMachineCreate_idem cfg ids attrs st stt cl h1 h2 h3 h4).2
  · intro ids attrs st stt dt dr c cl site h1 h2 h3 h4 h5 h6 h7
    exact (hostCreate_idem ids attrs st stt dt dr c cl site h1 h2 h3 h4 h5 h6 h7).2

/-- Witness for the C9 theorem: each create run twice at concrete inputs
against the example store. -/
theorem creates_idempotent_at_store_level_witness :
    (clusterGroupCreate ⟨"cgNew"⟩ (clusterGroupCreate ⟨"cgNew"⟩ exampleStore).store =
      { store := (clusterGroupCreate ⟨"cgNew"⟩ exampleStore).store,
        registered := true }) ∧
    (clusterCreate ⟨true, true, "vtype9", "DC"⟩ ⟨"cNew"⟩ ⟨none, none⟩
      (clusterCreate ⟨true, true, "vtype9", "DC"⟩ ⟨"cNew"⟩ ⟨none, none⟩
        exampleStore).store =
      { store := (clusterCreate ⟨true, true, "vtype9", "DC"⟩ ⟨"cNew"⟩ ⟨none, none⟩
          exampleStore).store, registered := true }) ∧
    (vmInterfaceCreate ⟨"eth1", "vm1"⟩ ⟨true, none⟩
      (vmInterfaceCreate ⟨"eth1", "vm1"⟩ ⟨true, none⟩ exampleStore).store =
      { store := (vmInterfaceCreate ⟨"eth1", "vm1"⟩ ⟨true, none⟩ exampleStore).store,
        registered := true }) ∧
    (ipAddressCreate ⟨"10.0.0.9", 24, "aa:bb:cc:dd:ee:ff"⟩
      ⟨some "Active", some "eth0", some "vm1"⟩
      (ipAddressCreate ⟨"10.0.0.9", 24, "aa:bb:cc:dd:ee:ff"⟩
        ⟨some "Active", some "eth0", some "vm1"⟩ exampleStore).store =
      { store := (ipAddressCreate ⟨"10.0.0.9", 24, "aa:bb:cc:dd:ee:ff"⟩
          ⟨some "Active", some "eth0", some "vm1"⟩ exampleStore).store,
        registered := true }) ∧
    (virtualMachineCreate ⟨true, true, "vSphere", "DC"⟩ ⟨"vm9"⟩
      ⟨some "Active", some 2, some 4096, some 50, some "c1", none, none⟩
      (virtualMachineCreate ⟨true, true, "vSphere", "DC"⟩ ⟨"vm9"⟩
        ⟨some "Active", some 2, some 4096, some 50, some "c1", none, none⟩
        exampleStore).store =
      { store := (virtualMachineCreate ⟨true, true, "vSphere", "DC"⟩ ⟨"vm9"⟩
          ⟨some "Active", some 2, some 4096, some 50, some "c1", none, none⟩
          exampleStore).store, registered := true }) ∧
    (hostCreate ⟨"esx2"⟩ ⟨"Host", "ESXi", "gtn", some "c1"⟩
      (hostCreate ⟨"esx2"⟩ ⟨"Host", "ESXi", "gtn", some "c1"⟩ exampleStore).store =
      { store := (hostCreate ⟨"esx2"⟩ ⟨"Host", "ESXi", "gtn", some "c1"⟩
          exampleStore).store, registered := true }) := by
  obtain ⟨w1, w2, w3, w4, w5, w6⟩ := creates_idempotent_at_store_level
  exact ⟨(w1 ⟨"cgNew"⟩ exampleStore rfl).1,
    (w2 ⟨true, true, "vtype9", "DC"⟩ ⟨"cNew"⟩ ⟨none, none⟩ exampleStore rfl rfl rfl).1,
    (w3 ⟨"eth1", "vm1"⟩ ⟨true, none⟩ exampleStore
      ⟨"vm1", "Active", "c1", none, none, none, none, none⟩ rfl rfl).1,
    (w4 ⟨"10.0.0.9", 24, "aa:bb:cc:dd:ee:ff"⟩ ⟨some "Active", some "eth0", some "vm1"⟩
      exampleStore ⟨"vm1", "Active", "c1", none, none, none, none, none⟩
      ⟨"eth0", "vm1", true, some "aa:bb:cc:dd:ee:ff", [("10.0.0.5", 24)]⟩
      ⟨"Active"⟩ rfl rfl rfl rfl rfl).1,
    (w5 ⟨true, true, "vSphere", "DC"⟩ ⟨"vm9"⟩
      ⟨some "Active", some 2, some 4096, some 50, some "c1", none, none⟩ exampleStore
      ⟨"Active"⟩ ⟨"c1", "vSphere", none⟩ rfl rfl rfl rfl).1,
    (w6 ⟨"esx2"⟩ ⟨"Host", "ESXi", "gtn", some "c1"⟩ exampleStore ⟨"Active"⟩ ⟨"ESXi"⟩
      ⟨"Host"⟩ "c1" ⟨"c1", "vSphere", none⟩ ⟨"gtn"⟩ rfl rfl rfl rfl rfl rfl rfl).1⟩

end VsphereSSoT
